import Mathlib

/-!
Verification development for the netdata python.d sensor collectors
(`liquidctl.chart.py` and `sensors.chart.py`).

The Python sources are shallowly embedded: JSON numbers are modelled as
exact rationals (`ℚ`), Python `int()` on a number as truncation toward
zero, Python dicts as insertion-ordered association lists, and exceptions
as `Except` / explicit outcome records.  The four `re.sub` passes of
`Service._normalize` are modelled as fuelled left-to-right scanners that
reproduce the leftmost-match, greedy semantics of the concrete patterns
involved (each pattern is such that greedy backtracking never succeeds
after the maximal run, so maximal-run scanning is exact).
-/

namespace Norm

/-- Character class `[a-z]` of the patterns in `Service._normalize`. -/
def isLowerAlpha (c : Char) : Bool := decide ('a' ≤ c) && decide (c ≤ 'z')

/-- Character class `[0-9]`. -/
def isDigitC (c : Char) : Bool := decide ('0' ≤ c) && decide (c ≤ '9')

/-- Character class `[a-z0-9]` (the slug alphabet less the dash). -/
def isAlnum (c : Char) : Bool := isLowerAlpha c || isDigitC c

/-- Character class `[0-9.]` used by the `\+([0-9.]+v)` pattern. -/
def isDigitDot (c : Char) : Bool := isDigitC c || decide (c = '.')

/-- ASCII fragment of Python `str.casefold` (`A`-`Z` to lower case); the
labels handled by the collectors are ASCII. -/
def casefoldChar (c : Char) : Char :=
  if decide ('A' ≤ c) && decide (c ≤ 'Z') then Char.ofNat (c.toNat + 32) else c

/-- Whitespace recognised by Python `str.split()` (ASCII fragment). -/
def isPySpace (c : Char) : Bool :=
  decide (c = ' ') || decide (c = '\t') || decide (c = '\n') ||
  decide (c = '\r') || decide (c = Char.ofNat 11) || decide (c = Char.ofNat 12)

/-- Helper of `splitWs`: accumulates the current word (reversed). -/
def splitWsAux : List Char → List Char → List (List Char)
  | [], acc => if acc.isEmpty then [] else [acc.reverse]
  | c :: rest, acc =>
    if isPySpace c then
      if acc.isEmpty then splitWsAux rest [] else acc.reverse :: splitWsAux rest []
    else splitWsAux rest (c :: acc)

/-- Python `str.split()`: split on whitespace runs, dropping empty words. -/
def splitWs (s : List Char) : List (List Char) := splitWsAux s []

/-- Python `' '.join(words)`. -/
def joinSpace : List (List Char) → List Char
  | [] => []
  | [w] => w
  | w :: ws => w ++ ' ' :: joinSpace ws

/-- Scanner for `re.sub(r'([a-z]+) ([0-9]+)', r'\1\2', r)`: a maximal
letter run followed by a single space and a digit run is joined. -/
def sub1F : Nat → List Char → List Char
  | 0, s => s
  | _ + 1, [] => []
  | fuel + 1, c :: rest =>
    if isLowerAlpha c then
      let letters := (c :: rest).takeWhile isLowerAlpha
      let rest1 := (c :: rest).dropWhile isLowerAlpha
      match rest1 with
      | ' ' :: rest2 =>
        let digits := rest2.takeWhile isDigitC
        if digits.isEmpty then letters ++ ' ' :: sub1F fuel rest2
        else letters ++ digits ++ sub1F fuel (rest2.dropWhile isDigitC)
      | _ => letters ++ sub1F fuel rest1
    else c :: sub1F fuel rest

def sub1 (s : List Char) : List Char := sub1F s.length s

/-- Scanner for `re.sub(r'\+([0-9.]+v)', r'\1', r)`: a plus sign before a
nonempty `[0-9.]` run that is closed by `v` is dropped. -/
def sub2F : Nat → List Char → List Char
  | 0, s => s
  | _ + 1, [] => []
  | fuel + 1, c :: rest =>
    if decide (c = '+') then
      let run := rest.takeWhile isDigitDot
      let rest2 := rest.dropWhile isDigitDot
      match rest2 with
      | 'v' :: rest3 =>
        if run.isEmpty then '+' :: sub2F fuel rest
        else run ++ 'v' :: sub2F fuel rest3
      | _ => '+' :: sub2F fuel rest
    else c :: sub2F fuel rest

def sub2 (s : List Char) : List Char := sub2F s.length s

/-- Scanner for `re.sub(r'([0-9]+)\.([0-9]+)v', r'\1v\2', r)`: the `v` is
moved before the fractional digits of a `<digits>.<digits>v` group. -/
def sub3F : Nat → List Char → List Char
  | 0, s => s
  | _ + 1, [] => []
  | fuel + 1, c :: rest =>
    if isDigitC c then
      let d1 := (c :: rest).takeWhile isDigitC
      let r1 := (c :: rest).dropWhile isDigitC
      match r1 with
      | '.' :: r2 =>
        let d2 := r2.takeWhile isDigitC
        let r3 := r2.dropWhile isDigitC
        match d2, r3 with
        | _ :: _, 'v' :: r4 => d1 ++ 'v' :: (d2 ++ sub3F fuel r4)
        | _, _ => d1 ++ sub3F fuel r1
      | _ => d1 ++ sub3F fuel r1
    else c :: sub3F fuel rest

def sub3 (s : List Char) : List Char := sub3F s.length s

/-- Scanner for `re.sub(r'[^a-z0-9]+', '-', r)`: every maximal run of
characters outside `[a-z0-9]` becomes a single dash. -/
def sub4F : Nat → List Char → List Char
  | 0, s => s
  | _ + 1, [] => []
  | fuel + 1, c :: rest =>
    if isAlnum c then c :: sub4F fuel rest
    else '-' :: sub4F fuel (rest.dropWhile (fun x => !isAlnum x))

def sub4 (s : List Char) : List Char := sub4F s.length s

/-- Embedding of `Service._normalize` from `liquidctl.chart.py` at the
level of character lists; `skipWords` is `proto.skip_words` (when a proto
with a skip-word tuple was passed). -/
def normalizeL (arg : List Char) (skipWords : Option (List String)) : List Char :=
  let r := arg.map casefoldChar
  let r :=
    match skipWords with
    | some sw =>
      joinSpace ((splitWs r).filter (fun w => !decide ((⟨w⟩ : String) ∈ sw)))
    | none => r
  sub4 (sub3 (sub2 (sub1 r)))

/-- The slug alphabet: `[a-z0-9]` plus the dash. -/
def isSlugChar (c : Char) : Bool := isAlnum c || decide (c = '-')

/-- No two adjacent dashes. -/
def noDD : List Char → Bool
  | c1 :: c2 :: rest => !(decide (c1 = '-') && decide (c2 = '-')) && noDD (c2 :: rest)
  | _ => true

end Norm

deriving instance DecidableEq for Except

/-- Exact multiplication of two rationals through numerators and
denominators, as `fractions.Fraction` multiplication does; proved equal to
rational multiplication in `fracMul_eq`.  (Written through `mkRat` so that
concrete runs reduce inside the kernel.) -/
def fracMul (a b : ℚ) : ℚ := mkRat (a.num * b.num) (a.den * b.den)

/-- Python `int()` applied to an exact rational: truncation toward zero. -/
def pyInt (q : ℚ) : Int := q.num.tdiv q.den

/-- Insertion-ordered dict assignment `d[k] = v` (overwrites in place,
appends a new key at the end), as for a Python `dict`. -/
def dictSet {α β : Type} [DecidableEq α] (l : List (α × β)) (k : α) (v : β) :
    List (α × β) :=
  if decide (k ∈ l.map Prod.fst) then
    l.map (fun p => if p.1 = k then (k, v) else p)
  else l ++ [(k, v)]

/-- Append `v` to the list held by a `defaultdict(list)` at key `k`. -/
def dictAppend {α β : Type} [DecidableEq α] (l : List (α × List β)) (k : α) (v : β) :
    List (α × List β) :=
  if decide (k ∈ l.map Prod.fst) then
    l.map (fun p => if p.1 = k then (p.1, p.2 ++ [v]) else p)
  else l ++ [(k, [v])]

namespace Liquidctl

/-- The `ChartType` IntEnum of `liquidctl.chart.py`. -/
inductive ChartType
  | TEMPERATURE
  | FAN
  | POWER
  | VOLTAGE
  | CURRENT
  | EFFICIENCY
  | TIME
deriving DecidableEq

/-- The IntEnum value of each `ChartType` member (1-7). -/
def ChartType.toInt : ChartType → Int
  | .TEMPERATURE => 1
  | .FAN => 2
  | .POWER => 3
  | .VOLTAGE => 4
  | .CURRENT => 5
  | .EFFICIENCY => 6
  | .TIME => 7

/-- The `InputUnit` attrs class: a known raw unit string and its metric
type; `base_ratio` is an optional exact rational scale. -/
structure InputUnit where
  chart_type : ChartType
  name : String
  base_ratio : Option ℚ
deriving DecidableEq

def InputUnit.get_base_ratio (u : InputUnit) : ℚ :=
  match u.base_ratio with
  | some r => r
  | none => 1

/-- The `ChartProto` attrs class: per-metric-type chart prototype. -/
structure ChartProto where
  type : ChartType
  name : String
  title : String
  unit_name : String
  store_ratio : Option ℚ
  limits : Option (Int × Int)
  skip_words : Option (List String)
deriving DecidableEq

def ChartProto.get_store_ratio (p : ChartProto) : ℚ :=
  match p.store_ratio with
  | some r => r
  | none => 1

/-- `ChartProto.validate_limits`: true when no limits are configured, or
the value lies inclusively between them. -/
def ChartProto.validate_limits (p : ChartProto) (arg : ℚ) : Bool :=
  match p.limits with
  | some l => decide ((l.1 : ℚ) ≤ arg) && decide (arg ≤ (l.2 : ℚ))
  | none => true

/-- The `INPUT_UNITS` table. -/
def INPUT_UNITS : List InputUnit :=
  [ ⟨.TEMPERATURE, "°C", none⟩,
    ⟨.FAN, "rpm", none⟩,
    ⟨.POWER, "W", none⟩,
    ⟨.VOLTAGE, "V", none⟩,
    ⟨.CURRENT, "A", none⟩,
    ⟨.EFFICIENCY, "%", none⟩,
    ⟨.TIME, "s", none⟩ ]

/-- The `INPUT_UNIT_FROM_STR` dict, as lookup by unit string (names in
`INPUT_UNITS` are pairwise distinct, so first-match lookup agrees with the
Python dict built from the list). -/
def INPUT_UNIT_FROM_STR (s : String) : Option InputUnit :=
  INPUT_UNITS.find? (fun u => decide (u.name = s))

def temperatureProto : ChartProto :=
  ⟨.TEMPERATURE, "temperature", "Temperature", "Celsius", some 1000,
    some (-200, 200), some ["temperature"]⟩

def fanProto : ChartProto :=
  ⟨.FAN, "fan", "Fans speed", "Rotations/min", none, some (0, 10000), some ["speed"]⟩

def powerProto : ChartProto :=
  ⟨.POWER, "power", "Power", "Watt", some 1000, some (0, 10000), some ["power"]⟩

def voltageProto : ChartProto :=
  ⟨.VOLTAGE, "voltage", "Voltage", "Volt", some 1000, some (0, 1000),
    some ["voltage", "rail"]⟩

def currentProto : ChartProto :=
  ⟨.CURRENT, "current", "Current", "Ampere", some 1000, some (0, 1000), some ["current"]⟩

def efficiencyProto : ChartProto :=
  ⟨.EFFICIENCY, "efficiency", "Efficiency", "Percent", some 1000, some (0, 100),
    some ["efficiency"]⟩

def uptimeProto : ChartProto :=
  ⟨.TIME, "uptime", "Uptime", "seconds", none, none, none⟩

/-- The `CHART_PROTO` table. -/
def CHART_PROTO : List ChartProto :=
  [temperatureProto, fanProto, powerProto, voltageProto, currentProto,
   efficiencyProto, uptimeProto]

/-- The `CHART_PROTO_FROM_TYPE` dict, as lookup by metric type. -/
def CHART_PROTO_FROM_TYPE (t : ChartType) : Option ChartProto :=
  CHART_PROTO.find? (fun p => decide (p.type = t))

/-- One metric item of a device record of the parsed
`liquidctl status --json` output: key, unit string and numeric value
(JSON numbers modelled as exact rationals). -/
structure ItemJson where
  key : String
  unit : String
  value : ℚ
deriving DecidableEq

/-- One device record of the parsed backend output. -/
structure DeviceJson where
  description : String
  bus : String
  address : String
  status : List ItemJson
deriving DecidableEq

/-- The exceptions that can escape the collection code: the module's
`ErrorException` and `NoDataException`, the bare `assert` failure of the
duplicate-device check, and a (dead in practice) dict `KeyError`. -/
inductive PyErr
  | errorException (msg : String)
  | noDataException
  | assertionError
  | keyError
deriving DecidableEq

/-- `InputUnit.from_item`: unit lookup by the item's raw unit string,
raising `ErrorException` on an unknown string (the message renders the
offending item through its key and unit). -/
def InputUnit.from_item (item : ItemJson) : Except PyErr InputUnit :=
  match INPUT_UNIT_FROM_STR item.unit with
  | some u => .ok u
  | none =>
    .error (.errorException
      ("Unsupported: cannot determine unit for item " ++ item.key ++ " " ++ item.unit))

/-- `ChartProto.from_unit`: prototype lookup by metric type; a miss would
be a Python `KeyError` (impossible, as `CHART_PROTO` covers every type). -/
def ChartProto.from_unit (u : InputUnit) : Except PyErr ChartProto :=
  match CHART_PROTO_FROM_TYPE u.chart_type with
  | some p => .ok p
  | none => .error .keyError

/-- The `Device` attrs class. -/
structure Device where
  id : String
  name : String
  label : String
  bus : String
  address : String
deriving DecidableEq

/-- The `Chart` attrs class (aggregation key: prototype plus device). -/
structure Chart where
  proto : ChartProto
  device : Device
deriving DecidableEq

/-- The `ChartDataPoint` attrs class. -/
structure ChartDataPoint where
  dim_id : String
  dim_label : String
  value : ℚ
deriving DecidableEq

/-- `Service._normalize`: the slug normalizer (filler words are taken from
the prototype's `skip_words` when a prototype is passed). -/
def normalize (arg : String) (proto : Option ChartProto) : String :=
  ⟨Norm.normalizeL arg.data
    (match proto with
     | some p => p.skip_words
     | none => none)⟩

/-- `os.path.basename` for the POSIX paths involved: the suffix after the
last slash. -/
def basename (s : String) : String :=
  ⟨s.data.foldl (fun acc c => if c = '/' then [] else acc ++ [c]) []⟩

def make_chart_id (chart : Chart) : String :=
  chart.device.id ++ "_" ++ chart.proto.name

def make_dim_id (chart : Chart) (dp : ChartDataPoint) : String :=
  chart.device.id ++ "_" ++ chart.proto.name ++ "_" ++ dp.dim_id

/-- One dimension descriptor of `ChartBuilder.make_chart` (the values put
into `DIMENSION_PARAMS` order). -/
structure DimLine where
  id : String
  name : String
  algorithm : String
  multiplier : Int
  divisor : Int
  hidden : String
deriving DecidableEq

/-- The chart options of `ChartBuilder.make_chart` (the values put into
`CHART_PARAMS` order, without the implicit leading `type`). -/
structure ChartOptions where
  id : String
  title : String
  units : String
  family : String
  context : String
  chart_type : String
  hidden : String
deriving DecidableEq

/-- The chart labels dict of `ChartBuilder.make_chart`. -/
structure ChartLabels where
  sensor_id : String
  sensor_name : String
  sensor_bus : String
  sensor_address : String
deriving DecidableEq

/-- The full return value of `ChartBuilder.make_chart`. -/
structure ChartSpec where
  options : ChartOptions
  labels : ChartLabels
  lines : List DimLine
  override_type : String
  override_name : String
deriving DecidableEq

/-- `ChartBuilder.make_chart`. -/
def make_chart (chart : Chart) (data : List ChartDataPoint) : ChartSpec :=
  { options :=
      { id := make_chart_id chart
        title := chart.proto.title
        units := chart.proto.unit_name
        family := chart.proto.name
        context := "sensors." ++ chart.proto.name
        chart_type := "line"
        hidden := "" }
    labels :=
      { sensor_id := chart.device.id
        sensor_name := chart.device.name
        sensor_bus := chart.device.bus
        sensor_address := chart.device.address }
    lines :=
      data.map (fun dp =>
        { id := make_dim_id chart dp
          name := dp.dim_label
          algorithm := "absolute"
          multiplier := ((chart.proto.get_store_ratio).den : Int)
          divisor := (chart.proto.get_store_ratio).num
          hidden := "" })
    override_type := "sensors"
    override_name := "sensors." ++ make_chart_id chart }

/-- `ChartBuilder.submit`: append a data point to the chart keyed by
(prototype, device), creating the bucket on first submission. -/
def submit (dps : List (Chart × List ChartDataPoint)) (proto : ChartProto)
    (device : Device) (item_id item_label : String) (value : ℚ) :
    List (Chart × List ChartDataPoint) :=
  dictAppend dps ⟨proto, device⟩ ⟨item_id, item_label, value⟩

/-- `ChartBuilder.make_chart_priority`: the service base priority plus the
IntEnum value of the prototype's metric type. -/
def make_chart_priority (priority : Int) (proto : ChartProto) : Int :=
  priority + proto.type.toInt

/-- One chart registration performed by `ChartBuilder.build_charts`:
the aggregation key it was emitted for, the `make_chart` result, and the
priority stored into the host chart's params. -/
structure ChartRegistration where
  chart_key : Chart
  spec : ChartSpec
  priority : Int
deriving DecidableEq

/-- `ChartBuilder.build_charts`: walk the accumulated charts in insertion
order; charts whose id is already registered with the host are skipped,
the others are registered and their id remembered. -/
def build_charts (priority : Int) :
    List (Chart × List ChartDataPoint) → List String →
    List ChartRegistration × List String
  | [], charts => ([], charts)
  | (chart, data) :: rest, charts =>
    let cid := make_chart_id chart
    if decide (cid ∈ charts) then build_charts priority rest charts
    else
      let r := build_charts priority rest (charts ++ [cid])
      (⟨chart, make_chart chart data, make_chart_priority priority chart.proto⟩ :: r.1,
       r.2)

/-- `ChartBuilder.build_data`: the dict comprehension mapping each
dimension id to `int(value * store_ratio)`, or `None` when empty. -/
def build_data (dps : List (Chart × List ChartDataPoint)) :
    Option (List (String × Int)) :=
  let l := dps.foldl
    (fun acc cd => cd.2.foldl
      (fun acc2 dp =>
        dictSet acc2 (make_dim_id cd.1 dp)
          (pyInt (fracMul dp.value cd.1.proto.get_store_ratio)))
      acc)
    []
  if l.isEmpty then none else some l

/-- The per-data-point output entries of `build_data`, in accumulation
order: the dict comprehension inserts exactly these pairs, the last write
winning when several share a dimension id. -/
def dataEntries (dps : List (Chart × List ChartDataPoint)) : List (String × Int) :=
  dps.flatMap (fun cd => cd.2.map (fun dp =>
    (make_dim_id cd.1 dp, pyInt (fracMul dp.value cd.1.proto.get_store_ratio))))

/-- The dimension ids of all accumulated data points, in accumulation
order (pairwise distinct exactly when no dimension-id collision occurs). -/
def dimIds (dps : List (Chart × List ChartDataPoint)) : List String :=
  dps.flatMap (fun cd => cd.2.map (fun dp => make_dim_id cd.1 dp))

/-- The mutable state threaded through `Service._get_data`'s device loop:
the builder's accumulated points, the `device_seen` ids, and the warnings
logged so far. -/
structure PollState where
  dps : List (Chart × List ChartDataPoint)
  device_seen : List String
  warnings : List String
deriving DecidableEq

/-- The warning text for an out-of-range value (the offending item is
rendered through its key). -/
def badValueMsg (proto : ChartProto) (item : ItemJson) : String :=
  match proto.limits with
  | some l =>
    "Bad item value (expected within " ++ toString l.1 ++ " and " ++ toString l.2 ++
      "), skipping: " ++ item.key
  | none => ""

/-- The body of the item loop of `Service._get_data`: classify the unit
and resolve the prototype (an `ErrorException` there is logged and the
item skipped), normalize the item label, range-check the value, and
submit the point scaled by the unit's base ratio. -/
def processItem (st : PollState) (device : Device) (item : ItemJson) :
    Except PyErr PollState :=
  match (InputUnit.from_item item).bind
      (fun u => (ChartProto.from_unit u).map (fun p => (u, p))) with
  | .error (.errorException msg) =>
    .ok { st with warnings := st.warnings ++ ["Skipping item: " ++ msg] }
  | .error e => .error e
  | .ok (item_unit, chart_proto) =>
    let item_label := item.key
    let item_id := normalize item_label (some chart_proto)
    let item_value := item.value
    if chart_proto.validate_limits item_value then
      .ok { st with
              dps := submit st.dps chart_proto device item_id item_label
                (fracMul item_value item_unit.get_base_ratio) }
    else
      .ok { st with warnings := st.warnings ++ [badValueMsg chart_proto item] }

/-- The id a raw device record derives:
`normalize(description) + '-' + basename(address)`. -/
def deviceIdOf (dj : DeviceJson) : String :=
  normalize dj.description none ++ "-" ++ basename dj.address

/-- The body of the device loop of `Service._get_data`: build the device
metadata, fail the poll (bare `assert`) on a duplicate device id, then
run the item loop. -/
def processDevice (st : PollState) (dj : DeviceJson) : Except PyErr PollState :=
  let device_name := normalize dj.description none
  let device_id := device_name ++ "-" ++ basename dj.address
  let device : Device :=
    { id := device_id, name := device_name, label := dj.description,
      bus := dj.bus, address := dj.address }
  if decide (device_id ∈ st.device_seen) then .error .assertionError
  else
    List.foldlM (fun s item => processItem s device item)
      { st with device_seen := st.device_seen ++ [device_id] }
      dj.status

/-- `Service._get_data` over the parsed backend output: run the device
loop, then `build_charts` and `build_data`.  Returns the data map, the
chart registrations, the updated registered-chart-id set, and the
warnings. -/
def getDataInner (priority : Int) (charts : List String) (input : List DeviceJson) :
    Except PyErr
      (Option (List (String × Int)) × List ChartRegistration × List String ×
        List String) := do
  let st ← List.foldlM processDevice ⟨[], [], []⟩ input
  let r := build_charts priority st.dps charts
  return (build_data st.dps, r.1, r.2, st.warnings)

/-- The observable outcome of one `Service.get_data` call: the returned
data (or `None`), the chart registrations performed, the registered set
afterwards, the warnings, and the messages logged through `self.error`. -/
structure PollOutcome where
  data : Option (List (String × Int))
  requests : List ChartRegistration
  charts : List String
  warnings : List String
  errors : List String
deriving DecidableEq

/-- `Service.get_data`: `_get_data` under the exception net.  An
`ErrorException` logs its message, a `NoDataException` is silent, and any
other exception (here: the duplicate-device `AssertionError`, whose
`str()` is empty, or a `KeyError`) logs `'Failed to get data: ' + str(e)`;
all three return `None` for the poll. -/
def get_data (priority : Int) (charts : List String) (input : List DeviceJson) :
    PollOutcome :=
  match getDataInner priority charts input with
  | .ok (data, regs, charts', warns) => ⟨data, regs, charts', warns, []⟩
  | .error (.errorException msg) => ⟨none, [], charts, [], [msg]⟩
  | .error .noDataException => ⟨none, [], charts, [], []⟩
  | .error .assertionError => ⟨none, [], charts, [], ["Failed to get data: "]⟩
  | .error .keyError => ⟨none, [], charts, [], ["Failed to get data: KeyError"]⟩

end Liquidctl

namespace Sensors

/-- The `ORDER` list of `sensors.chart.py`. -/
def ORDER : List String :=
  ["temperature", "fan", "power", "voltage", "energy", "current", "humidity"]

/-- One entry of the `CHARTS` prototype dict: the option values
`[title, units, family, context, chart_type]` and the dimension template
`[None, None, algorithm, multiplier, divisor]`. -/
structure ChartDef where
  title : String
  units : String
  family : String
  context : String
  ctype : String
  line_algorithm : String
  line_multiplier : Int
  line_divisor : Int
deriving DecidableEq

/-- The `CHARTS` dict. -/
def CHARTS : List (String × ChartDef) :=
  [ ("temperature",
      ⟨"Temperature", "Celsius", "temperature", "sensors.temperature", "line",
        "absolute", 1, 1000⟩),
    ("voltage",
      ⟨"Voltage", "Volts", "voltage", "sensors.voltage", "line", "absolute", 1, 1000⟩),
    ("current",
      ⟨"Current", "Ampere", "current", "sensors.current", "line", "absolute", 1, 1000⟩),
    ("power",
      ⟨"Power", "Watt", "power", "sensors.power", "line", "absolute", 1, 1000⟩),
    ("fan",
      ⟨"Fans speed", "Rotations/min", "fans", "sensors.fan", "line", "absolute", 1, 1000⟩),
    ("energy",
      ⟨"Energy", "Joule", "energy", "sensors.energy", "line", "incremental", 1, 1000⟩),
    ("humidity",
      ⟨"Humidity", "Percent", "humidity", "sensors.humidity", "line", "absolute", 1, 1000⟩) ]

/-- The `LIMITS` dict. -/
def LIMITS : List (String × (Int × Int)) :=
  [ ("temperature", (-127, 1000)),
    ("voltage", (-400, 400)),
    ("current", (-127, 127)),
    ("fan", (0, 65535)) ]

/-- The `SKIP_WORDS` dict. -/
def SKIP_WORDS : List (String × List String) :=
  [ ("temperature", ["temperature", "temp"]),
    ("fan", ["speed"]),
    ("power", ["power"]),
    ("voltage", ["voltage", "rail"]),
    ("current", ["current"]) ]

/-- The `TYPE_MAP` dict (lm-sensors feature type number to metric name). -/
def TYPE_MAP : List (Nat × String) :=
  [(0, "voltage"), (1, "fan"), (2, "temperature"), (3, "power"), (4, "energy"),
   (5, "current"), (6, "humidity")]

/-- The module-level `_cleanup`: drop the whole words whose casefold is in
the metric's skip-word set (the kept words keep their original case). -/
def cleanupLabel (feat_name : String) (feat_type : String) : String :=
  match List.lookup feat_type SKIP_WORDS with
  | some sw =>
    ⟨Norm.joinSpace ((Norm.splitWs feat_name.data).filter
      (fun w => !decide ((⟨w.map Norm.casefoldChar⟩ : String) ∈ sw)))⟩
  | none => feat_name

/-- One lm-sensors feature as the collector observes it: the numeric
feature type, the raw feature name, the `sensors.get_label` result, the
truthiness of the first subfeature, and the `sensors.get_value` outcome
(`.error` models a `SensorsError`, `.ok none` a `None` reading). -/
structure Feat where
  ftype : Nat
  fname : String
  flabel : String
  sub_present : Bool
  read : Except Unit (Option ℚ)
deriving DecidableEq

/-- One chip as the collector observes it: the `chip_snprintf_name`
result, the decoded `chip.prefix`, and the features iterated. -/
structure Chip where
  cname : String
  pfx : String
  feats : List Feat
deriving DecidableEq

/-- The chip metadata dict built in `Service.get_data`. -/
structure ChipMeta where
  mname : String
  mpfx : String
  maddress : String
  mbus : String
deriving DecidableEq

/-- Python `str.removeprefix` (over characters). -/
def removePfx (s p : String) : String :=
  if List.isPrefixOf p.data s.data then ⟨s.data.drop p.data.length⟩ else s

/-- First component of `s.split('-', maxsplit=1)` (over characters): the
characters before the first dash, or the whole string. -/
def firstDashComponent (s : String) : String :=
  ⟨s.data.takeWhile (fun c => !decide (c = '-'))⟩

/-- The per-chip `seen` entry: feature type to accumulated
`(feat_name, feat_label)` pairs. -/
abbrev SeenEntry := List (String × List (String × String))

/-- The body of the feature loop of `Service.get_data`: unknown feature
types, absent subfeatures, `SensorsError` reads and `None` values are
skipped; the `(name, label)` pair is recorded in `seen` BEFORE the limit
check, and the scaled integer value is stored only when within limits. -/
def processFeat (cname : String) (acc : SeenEntry × List (String × Int)) (feat : Feat) :
    SeenEntry × List (String × Int) :=
  match List.lookup feat.ftype TYPE_MAP with
  | none => acc
  | some feat_type =>
    let feat_label := cleanupLabel feat.flabel feat_type
    if !feat.sub_present then acc
    else
      match feat.read with
      | .error _ => acc
      | .ok none => acc
      | .ok (some v) =>
        let e := dictAppend acc.1 feat_type (feat.fname, feat_label)
        match List.lookup feat_type LIMITS with
        | some lim =>
          if decide (v < (lim.1 : ℚ)) || decide ((lim.2 : ℚ) < v) then (e, acc.2)
          else (e, dictSet acc.2 (cname ++ "_" ++ feat.fname) (pyInt (fracMul v 1000)))
        | none => (e, dictSet acc.2 (cname ++ "_" ++ feat.fname) (pyInt (fracMul v 1000)))

/-- The accumulating state of the chip loop: `seen`, `data`, `meta`. -/
structure ChipAcc where
  seen : List (String × SeenEntry)
  data : List (String × Int)
  meta : List (String × ChipMeta)
deriving DecidableEq

/-- The body of the chip loop of `Service.get_data`: split the chip name
by hand (the `assert chip_name != chip_address` failure is modelled as
the error case), then run the feature loop. -/
def processChip (acc : ChipAcc) (chip : Chip) : Except Unit ChipAcc :=
  let cname := chip.cname
  let seen0 := dictSet acc.seen cname ([] : SeenEntry)
  let chip_address := removePfx cname (chip.pfx ++ "-")
  if decide (cname = chip_address) then .error ()
  else
    let chip_bus := firstDashComponent chip_address
    let meta := dictSet acc.meta cname ⟨cname, chip.pfx, chip_address, chip_bus⟩
    let r := chip.feats.foldl (processFeat cname) (([] : SeenEntry), acc.data)
    .ok ⟨dictSet seen0 cname r.1, r.2, meta⟩

/-- One chart registration performed by `Service.update_sensors_charts`.
`feat_type` is the `seen` key the chart was emitted for. -/
structure Registration where
  feat_type : String
  chart_id : String
  title : String
  units : String
  family : String
  context : String
  ctype : String
  labels_id : String
  labels_name : String
  labels_bus : String
  labels_address : String
  priority : Int
  dims : List Liquidctl.DimLine
deriving DecidableEq

/-- `Service.get_chart_priority`: the base priority plus the index of the
metric in `ORDER` (the base priority alone for an unknown metric). -/
def get_chart_priority (priority : Int) (feat_type : String) : Int :=
  match ORDER.findIdx? (fun v => decide (v = feat_type)) with
  | some i => priority + (i : Int)
  | none => priority

/-- The chart built for one `seen` entry: options from `CHARTS`, labels
from the chip metadata, one dimension per recorded `(name, label)` pair
using the `CHARTS` dimension template. -/
def makeRegistration (priority : Int) (cname feat_type : String) (cdef : ChartDef)
    (m : ChipMeta) (sub : List (String × String)) : Registration :=
  { feat_type := feat_type
    chart_id := cname ++ "_" ++ feat_type
    title := cdef.title
    units := cdef.units
    family := cdef.family
    context := cdef.context
    ctype := cdef.ctype
    labels_id := m.mname
    labels_name := m.mpfx
    labels_bus := m.mbus
    labels_address := m.maddress
    priority := get_chart_priority priority feat_type
    dims := sub.map (fun nl =>
      { id := cname ++ "_" ++ nl.1
        name := nl.2
        algorithm := cdef.line_algorithm
        multiplier := cdef.line_multiplier
        divisor := cdef.line_divisor
        hidden := "" }) }

/-- The chip filter of `Service.update_sensors_charts`: skip a chip when
a nonempty `chips` configuration exists and no configured prefix matches
the chip name. -/
def chipFiltered (cfg : Option (List String)) (cname : String) : Bool :=
  match cfg with
  | none => false
  | some l => !l.isEmpty && !(l.any (fun ex => List.isPrefixOf ex.data cname.data))

/-- The feature-type loop of `Service.update_sensors_charts` for one
chip: metrics outside `ORDER`/`CHARTS` and already-registered chart ids
are skipped, the others are registered and remembered. -/
def updateChartsFeat (priority : Int) (cname : String) (m : ChipMeta) :
    SeenEntry → List String → List Registration × List String
  | [], charts => ([], charts)
  | (feat_type, sub) :: rest, charts =>
    match List.lookup feat_type CHARTS with
    | none => updateChartsFeat priority cname m rest charts
    | some cdef =>
      if decide (feat_type ∈ ORDER) then
        let cid := cname ++ "_" ++ feat_type
        if decide (cid ∈ charts) then updateChartsFeat priority cname m rest charts
        else
          let r := updateChartsFeat priority cname m rest (charts ++ [cid])
          (makeRegistration priority cname feat_type cdef m sub :: r.1, r.2)
      else updateChartsFeat priority cname m rest charts

/-- `Service.update_sensors_charts`: the chip loop (`meta` misses cannot
occur for the `seen` built by `get_data` and are modelled as skips). -/
def update_sensors_charts (priority : Int) (cfg : Option (List String))
    (meta : List (String × ChipMeta)) :
    List (String × SeenEntry) → List String → List Registration × List String
  | [], charts => ([], charts)
  | (cname, featmap) :: rest, charts =>
    if chipFiltered cfg cname then
      update_sensors_charts priority cfg meta rest charts
    else
      match List.lookup cname meta with
      | none => update_sensors_charts priority cfg meta rest charts
      | some m =>
        let r1 := updateChartsFeat priority cname m featmap charts
        let r2 := update_sensors_charts priority cfg meta rest r1.2
        (r1.1 ++ r2.1, r2.2)

/-- The observable outcome of one sensors `Service.get_data` call (the
`assert` failure inside the chip loop escapes as `.error`). -/
structure Outcome where
  data : Option (List (String × Int))
  requests : List Registration
  charts : List String
deriving DecidableEq

/-- Sensors `Service.get_data` over the observed chips: run the chip
loop, then `update_sensors_charts`, and return `data or None`. -/
def get_data (priority : Int) (cfg : Option (List String)) (charts : List String)
    (input : List Chip) : Except Unit Outcome := do
  let acc ← List.foldlM processChip ⟨[], [], []⟩ input
  let r := update_sensors_charts priority cfg acc.meta acc.seen charts
  return ⟨if acc.data.isEmpty then none else some acc.data, r.1, r.2⟩

end Sensors

/-- Modelled from the spec: the `round_toward_nearest` integer conversion
that §4.3 claims `build_data` performs on `value * store_ratio`.  Rounds
to the nearest integer (ties half up); written through `Int.fdiv` so the
kernel can evaluate it. -/
def round_toward_nearest (q : ℚ) : Int := (2 * q.num + (q.den : Int)).fdiv (2 * (q.den : Int))

namespace Liquidctl

/-- A device used by the concrete scenarios. -/
def devX : Device := ⟨"my-device-x", "my-device", "My Device", "hid", "/dev/x"⟩

/-- Builder state with a single uptime data point of value 36.6 (the
uptime prototype has store-ratio 1, so truncation and nearest-rounding
differ on it). -/
def dpsUptime : List (Chart × List ChartDataPoint) :=
  [(⟨uptimeProto, devX⟩, [⟨"up", "Up", mkRat 366 10⟩])]

/-- Builder state with a single temperature data point of value 36.6. -/
def dpsTemp : List (Chart × List ChartDataPoint) :=
  [(⟨temperatureProto, devX⟩, [⟨"temp1", "Temp 1", mkRat 366 10⟩])]

/-- A well-formed poll input: one device, a fan item and a temperature
item (the spec's end-to-end scenario). -/
def inputGood : List DeviceJson :=
  [⟨"Corsair Commander Pro", "hid", "/dev/hidraw2",
    [⟨"Fan 1 speed", "rpm", 1200⟩, ⟨"Temp 1", "°C", mkRat 366 10⟩]⟩]

/-- Two raw device records deriving the same device id `dev-a-h1`. -/
def inputDupA : List DeviceJson :=
  [⟨"Dev A", "hid", "/dev/h1", []⟩, ⟨"Dev A", "usb", "/dev/h1", []⟩]

/-- A different duplicate pair, deriving the id `pump-b-h2`. -/
def inputDupB : List DeviceJson :=
  [⟨"Pump B", "hid", "/dev/h2", []⟩, ⟨"Pump B", "usb", "/dev/h2", []⟩]

/-- Poll input with an out-of-range temperature (500, limits [-200, 200])
followed by a valid temperature on the same device. -/
def inputRange : List DeviceJson :=
  [⟨"My Device", "hid", "/dev/x",
    [⟨"Temp 1", "°C", 500⟩, ⟨"Temp 2", "°C", mkRat 366 10⟩]⟩]

/-- Poll input with an unsupported unit string followed by a valid item
on the same device. -/
def inputUnitErr : List DeviceJson :=
  [⟨"My Device", "hid", "/dev/x",
    [⟨"Odd", "X", 3⟩, ⟨"Temp 2", "°C", mkRat 366 10⟩]⟩]

end Liquidctl

namespace Sensors

/-- A chip with one energy feature (the `CHARTS` energy dimension
template carries the `incremental` algorithm). -/
def inputEnergy : List Chip :=
  [⟨"chipa-isa-0000", "chipa", [⟨4, "energy1", "Energy 1", true, .ok (some 5)⟩]⟩]

/-- A chip with one temperature feature of the given (symbolic) value. -/
def chipTemp (v : ℚ) : Chip :=
  ⟨"chipa-isa-0000", "chipa", [⟨2, "temp1", "Core 0", true, .ok (some v)⟩]⟩

/-- The chart registration the `chipTemp` chip produces. -/
def regTemp : Registration :=
  { feat_type := "temperature"
    chart_id := "chipa-isa-0000_temperature"
    title := "Temperature"
    units := "Celsius"
    family := "temperature"
    context := "sensors.temperature"
    ctype := "line"
    labels_id := "chipa-isa-0000"
    labels_name := "chipa"
    labels_bus := "isa"
    labels_address := "isa-0000"
    priority := 60000
    dims := [⟨"chipa-isa-0000_temp1", "Core 0", "absolute", 1, 1000, ""⟩] }

end Sensors

theorem fracMul_eq (a b : ℚ) : fracMul a b = a * b := by
  unfold fracMul
  rw [Rat.mkRat_eq_div]
  push_cast
  conv_rhs => rw [← Rat.num_div_den a, ← Rat.num_div_den b]
  rw [div_mul_div_comm]

theorem dictSet_mem {α β : Type} [DecidableEq α] {l : List (α × β)} {k : α} {v : β}
    {kv : α × β} (h : kv ∈ dictSet l k v) : kv ∈ l ∨ kv = (k, v) := by
  unfold dictSet at h
  split at h
  · obtain ⟨p, hp, he⟩ := List.mem_map.mp h
    by_cases hk : p.1 = k
    · rw [if_pos hk] at he
      exact Or.inr he.symm
    · rw [if_neg hk] at he
      exact Or.inl (he ▸ hp)
  · rcases List.mem_append.mp h with h1 | h1
    · exact Or.inl h1
    · exact Or.inr (List.mem_singleton.mp h1)

theorem lookup_map_set {α β : Type} [DecidableEq α] [BEq α] [LawfulBEq α]
    (k : α) (v : β) :
    ∀ l : List (α × β), k ∈ l.map Prod.fst →
      List.lookup k (l.map (fun p => if p.1 = k then (k, v) else p)) = some v := by
  intro l
  induction l with
  | nil => intro h; simp at h
  | cons p rest ih =>
    intro h
    obtain ⟨a, b⟩ := p
    simp only [List.map_cons]
    by_cases hp : a = k
    · rw [if_pos hp]
      simp [List.lookup]
    · rw [if_neg hp]
      have hk : (k == a) = false := beq_eq_false_iff_ne.mpr fun e => hp e.symm
      simp only [List.lookup, hk]
      apply ih
      rw [List.map_cons] at h
      rcases List.mem_cons.mp h with h1 | h1
      · exact absurd h1.symm hp
      · exact h1

theorem lookup_append_single {α β : Type} [DecidableEq α] [BEq α] [LawfulBEq α]
    (k : α) (v : β) :
    ∀ l : List (α × β), k ∉ l.map Prod.fst →
      List.lookup k (l ++ [(k, v)]) = some v := by
  intro l
  induction l with
  | nil => intro _; simp [List.lookup]
  | cons p rest ih =>
    intro h
    obtain ⟨a, b⟩ := p
    have h1 : k ≠ a ∧ k ∉ rest.map Prod.fst := by simpa [not_or] using h
    have hk : (k == a) = false := beq_eq_false_iff_ne.mpr h1.1
    simp only [List.cons_append, List.lookup, hk]
    exact ih h1.2

theorem lookup_dictSet_self {α β : Type} [DecidableEq α] [BEq α] [LawfulBEq α]
    (l : List (α × β)) (k : α) (v : β) :
    List.lookup k (dictSet l k v) = some v := by
  unfold dictSet
  split
  · next hc => exact lookup_map_set k v l (by simpa using hc)
  · next hc => exact lookup_append_single k v l (by simpa using hc)

theorem lookup_map_set_ne {α β : Type} [DecidableEq α] [BEq α] [LawfulBEq α]
    (k : α) (v : β) (k' : α) (hne : k' ≠ k) :
    ∀ l : List (α × β),
      List.lookup k' (l.map (fun p => if p.1 = k then (k, v) else p)) =
        List.lookup k' l := by
  intro l
  induction l with
  | nil => rfl
  | cons p rest ih =>
    obtain ⟨a, b⟩ := p
    simp only [List.map_cons]
    by_cases hp : a = k
    · rw [if_pos hp]
      subst hp
      simp only [List.lookup, beq_eq_false_iff_ne.mpr hne]
      exact ih
    · rw [if_neg hp]
      by_cases hk : k' = a
      · subst hk
        simp [List.lookup]
      · simp only [List.lookup, beq_eq_false_iff_ne.mpr hk]
        exact ih

theorem lookup_append_single_ne {α β : Type} [DecidableEq α] [BEq α] [LawfulBEq α]
    (k : α) (v : β) (k' : α) (hne : k' ≠ k) :
    ∀ l : List (α × β), List.lookup k' (l ++ [(k, v)]) = List.lookup k' l := by
  intro l
  induction l with
  | nil => simp [List.lookup, beq_eq_false_iff_ne.mpr hne]
  | cons p rest ih =>
    obtain ⟨a, b⟩ := p
    by_cases hk : k' = a
    · subst hk
      simp [List.lookup]
    · simp only [List.cons_append, List.lookup, beq_eq_false_iff_ne.mpr hk]
      exact ih

theorem lookup_dictSet_ne {α β : Type} [DecidableEq α] [BEq α] [LawfulBEq α]
    (l : List (α × β)) (k : α) (v : β) (k' : α) (hne : k' ≠ k) :
    List.lookup k' (dictSet l k v) = List.lookup k' l := by
  unfold dictSet
  split
  · exact lookup_map_set_ne k v k' hne l
  · exact lookup_append_single_ne k v k' hne l

theorem lookup_foldl_dictSet_some {α β : Type} [DecidableEq α] [BEq α] [LawfulBEq α] :
    ∀ (entries acc : List (α × β)) (k : α) (n : β),
      List.lookup k acc = some n →
      ∃ m, List.lookup k (entries.foldl (fun a p => dictSet a p.1 p.2) acc) = some m := by
  intro entries
  induction entries with
  | nil => exact fun acc k n h => ⟨n, h⟩
  | cons e rest ih =>
    intro acc k n h
    rw [List.foldl_cons]
    by_cases hk : k = e.1
    · subst hk
      exact ih _ _ e.2 (lookup_dictSet_self acc _ e.2)
    · exact ih _ _ n (by rw [lookup_dictSet_ne acc e.1 e.2 k hk]; exact h)

theorem lookup_foldl_dictSet_mem {α β : Type} [DecidableEq α] [BEq α] [LawfulBEq α] :
    ∀ (entries acc : List (α × β)) (kv : α × β), kv ∈ entries →
      ∃ m, List.lookup kv.1 (entries.foldl (fun a p => dictSet a p.1 p.2) acc) = some m := by
  intro entries
  induction entries with
  | nil => intro acc kv h; cases h
  | cons e rest ih =>
    intro acc kv h
    rw [List.foldl_cons]
    rcases List.mem_cons.mp h with rfl | hmem
    · exact lookup_foldl_dictSet_some rest _ kv.1 kv.2 (lookup_dictSet_self acc kv.1 kv.2)
    · exact ih _ kv hmem

theorem lookup_foldl_dictSet_notmem {α β : Type} [DecidableEq α] [BEq α] [LawfulBEq α] :
    ∀ (entries acc : List (α × β)) (k : α), k ∉ entries.map Prod.fst →
      List.lookup k (entries.foldl (fun a p => dictSet a p.1 p.2) acc) =
        List.lookup k acc := by
  intro entries
  induction entries with
  | nil => intro acc k _; rfl
  | cons e rest ih =>
    intro acc k h
    have h1 : k ≠ e.1 ∧ k ∉ rest.map Prod.fst := by simpa [not_or] using h
    rw [List.foldl_cons, ih _ _ h1.2, lookup_dictSet_ne _ _ _ _ h1.1]

theorem lookup_foldl_dictSet_nodup {α β : Type} [DecidableEq α] [BEq α] [LawfulBEq α] :
    ∀ (entries acc : List (α × β)) (kv : α × β), kv ∈ entries →
      (entries.map Prod.fst).Nodup →
      List.lookup kv.1 (entries.foldl (fun a p => dictSet a p.1 p.2) acc) =
        some kv.2 := by
  intro entries
  induction entries with
  | nil => intro acc kv h _; cases h
  | cons e rest ih =>
    intro acc kv h hnd
    have hnd' : e.1 ∉ rest.map Prod.fst ∧ (rest.map Prod.fst).Nodup := by
      simpa [List.nodup_cons] using hnd
    rw [List.foldl_cons]
    rcases List.mem_cons.mp h with rfl | hmem
    · rw [lookup_foldl_dictSet_notmem rest _ kv.1 hnd'.1, lookup_dictSet_self]
    · exact ih _ kv hmem hnd'.2

namespace Liquidctl

theorem build_data_inner_mem (c : Chart) (data : List ChartDataPoint)
    (acc : List (String × Int)) (kv : String × Int)
    (h : kv ∈ data.foldl
      (fun a dp => dictSet a (make_dim_id c dp)
        (pyInt (fracMul dp.value c.proto.get_store_ratio))) acc) :
    kv ∈ acc ∨ ∃ dp ∈ data,
      kv = (make_dim_id c dp, pyInt (fracMul dp.value c.proto.get_store_ratio)) := by
  induction data generalizing acc with
  | nil => exact Or.inl h
  | cons dp rest ih =>
    rcases ih _ h with h1 | ⟨dp', hdp', he⟩
    · rcases dictSet_mem h1 with h2 | h2
      · exact Or.inl h2
      · exact Or.inr ⟨dp, List.mem_cons_self .., h2⟩
    · exact Or.inr ⟨dp', List.mem_cons_of_mem _ hdp', he⟩

theorem build_data_outer_mem (dps : List (Chart × List ChartDataPoint))
    (acc : List (String × Int)) (kv : String × Int)
    (h : kv ∈ dps.foldl
      (fun a cd => cd.2.foldl
        (fun a2 dp => dictSet a2 (make_dim_id cd.1 dp)
          (pyInt (fracMul dp.value cd.1.proto.get_store_ratio))) a) acc) :
    kv ∈ acc ∨ ∃ cd ∈ dps, ∃ dp ∈ cd.2,
      kv = (make_dim_id cd.1 dp, pyInt (fracMul dp.value cd.1.proto.get_store_ratio)) := by
  induction dps generalizing acc with
  | nil => exact Or.inl h
  | cons cd rest ih =>
    rcases ih _ h with h1 | ⟨cd', hcd', hrest⟩
    · rcases build_data_inner_mem _ _ _ _ h1 with h2 | ⟨dp, hdp, he⟩
      · exact Or.inl h2
      · exact Or.inr ⟨cd, List.mem_cons_self .., dp, hdp, he⟩
    · exact Or.inr ⟨cd', List.mem_cons_of_mem _ hcd', hrest⟩

theorem build_data_flatten :
    ∀ (dps : List (Chart × List ChartDataPoint)) (acc : List (String × Int)),
      dps.foldl
        (fun a cd => cd.2.foldl
          (fun a2 dp => dictSet a2 (make_dim_id cd.1 dp)
            (pyInt (fracMul dp.value cd.1.proto.get_store_ratio))) a) acc
      = (dataEntries dps).foldl (fun a p => dictSet a p.1 p.2) acc := by
  intro dps
  induction dps with
  | nil => intro acc; rfl
  | cons cd rest ih =>
    intro acc
    rw [List.foldl_cons]
    have hinner : ∀ (data : List ChartDataPoint) (a : List (String × Int)),
        data.foldl (fun a2 dp => dictSet a2 (make_dim_id cd.1 dp)
          (pyInt (fracMul dp.value cd.1.proto.get_store_ratio))) a
        = (data.map (fun dp => (make_dim_id cd.1 dp,
            pyInt (fracMul dp.value cd.1.proto.get_store_ratio)))).foldl
            (fun a p => dictSet a p.1 p.2) a := by
      intro data
      induction data with
      | nil => intro a; rfl
      | cons dp drest dih =>
        intro a
        rw [List.foldl_cons, List.map_cons, List.foldl_cons]
        exact dih _
    rw [ih, hinner]
    rw [show dataEntries (cd :: rest)
        = (cd.2.map (fun dp => (make_dim_id cd.1 dp,
            pyInt (fracMul dp.value cd.1.proto.get_store_ratio)))) ++ dataEntries rest
        from rfl]
    rw [List.foldl_append]

theorem dataEntries_keys :
    ∀ dps : List (Chart × List ChartDataPoint),
      (dataEntries dps).map Prod.fst = dimIds dps := by
  intro dps
  induction dps with
  | nil => rfl
  | cons cd rest ih =>
    rw [show dataEntries (cd :: rest)
        = (cd.2.map (fun dp => (make_dim_id cd.1 dp,
            pyInt (fracMul dp.value cd.1.proto.get_store_ratio)))) ++ dataEntries rest
        from rfl,
      show dimIds (cd :: rest)
        = cd.2.map (fun dp => make_dim_id cd.1 dp) ++ dimIds rest from rfl,
      List.map_append, ih, List.map_map]
    rfl

theorem build_data_entry_mem (dps : List (Chart × List ChartDataPoint))
    (cd : Chart × List ChartDataPoint) (dp : ChartDataPoint)
    (hcd : cd ∈ dps) (hdp : dp ∈ cd.2) :
    (make_dim_id cd.1 dp, pyInt (fracMul dp.value cd.1.proto.get_store_ratio)) ∈
      dataEntries dps := by
  unfold dataEntries
  exact List.mem_flatMap.mpr ⟨cd, hcd, List.mem_map_of_mem _ hdp⟩

theorem build_data_eq_of_lookup (dps : List (Chart × List ChartDataPoint))
    (k : String) (n : Int)
    (h : List.lookup k
      ((dataEntries dps).foldl (fun a p => dictSet a p.1 p.2) []) = some n) :
    build_data dps =
      some ((dataEntries dps).foldl (fun a p => dictSet a p.1 p.2) []) := by
  simp only [build_data]
  rw [build_data_flatten dps []]
  cases hL : (dataEntries dps).foldl (fun a p => dictSet a p.1 p.2) [] with
  | nil => rw [hL] at h; simp at h
  | cons x xs => rfl

theorem build_charts_mono (p : Int) (dps : List (Chart × List ChartDataPoint))
    (cs : List String) (x : String) (h : x ∈ cs) : x ∈ (build_charts p dps cs).2 := by
  induction dps generalizing cs with
  | nil => exact h
  | cons cd rest ih =>
    simp only [build_charts]
    split
    · exact ih _ h
    · exact ih _ (List.mem_append_left _ h)

theorem build_charts_mem_id (p : Int) (dps : List (Chart × List ChartDataPoint))
    (cs : List String) (cd : Chart × List ChartDataPoint) (h : cd ∈ dps) :
    make_chart_id cd.1 ∈ (build_charts p dps cs).2 := by
  induction dps generalizing cs with
  | nil => cases h
  | cons cd' rest ih =>
    simp only [build_charts]
    rcases List.mem_cons.mp h with rfl | hmem
    · split
      · next hc => exact build_charts_mono _ _ _ _ (of_decide_eq_true hc)
      · exact build_charts_mono _ _ _ _ (List.mem_append_right _ (List.mem_singleton.mpr rfl))
    · split
      · exact ih _ hmem
      · exact ih _ hmem

theorem build_charts_all_registered (p : Int) (dps : List (Chart × List ChartDataPoint))
    (R : List String) (h : ∀ cd ∈ dps, make_chart_id cd.1 ∈ R) :
    build_charts p dps R = ([], R) := by
  induction dps with
  | nil => rfl
  | cons cd rest ih =>
    simp only [build_charts]
    rw [if_pos (decide_eq_true (h cd (List.mem_cons_self ..)))]
    exact ih fun x hx => h x (List.mem_cons_of_mem _ hx)

theorem build_charts_emits_new (p : Int) (dps : List (Chart × List ChartDataPoint))
    (cs : List String) (reg : ChartRegistration)
    (h : reg ∈ (build_charts p dps cs).1) : reg.spec.options.id ∉ cs := by
  induction dps generalizing cs with
  | nil => cases h
  | cons cd rest ih =>
    simp only [build_charts] at h
    split at h
    · exact ih _ h
    · next hc =>
      rcases List.mem_cons.mp h with rfl | hmem
      · simpa [make_chart] using hc
      · intro hin
        exact ih _ hmem (List.mem_append_left _ hin)

theorem build_charts_emitted_registered (p : Int)
    (dps : List (Chart × List ChartDataPoint)) (cs : List String)
    (reg : ChartRegistration) (h : reg ∈ (build_charts p dps cs).1) :
    reg.spec.options.id ∈ (build_charts p dps cs).2 := by
  induction dps generalizing cs with
  | nil => cases h
  | cons cd rest ih =>
    simp only [build_charts]
    simp only [build_charts] at h
    split at h
    · next hc => rw [if_pos hc]; exact ih _ h
    · next hc =>
      rw [if_neg hc]
      rcases List.mem_cons.mp h with rfl | hmem
      · simpa [make_chart] using
          build_charts_mono p rest _ _ (List.mem_append_right _ (List.mem_singleton.mpr rfl))
      · exact ih _ hmem

end Liquidctl

namespace Norm

theorem mem_of_mem_dropWhile {p : Char → Bool} {l : List Char} {x : Char}
    (h : x ∈ l.dropWhile p) : x ∈ l :=
  List.Sublist.mem h (List.dropWhile_sublist p)

theorem dropWhile_eq_cons_head {p : Char → Bool} :
    ∀ {l : List Char} {x : Char} {xs : List Char}, l.dropWhile p = x :: xs → p x = false := by
  intro l
  induction l with
  | nil => intro x xs h; cases h
  | cons a t ih =>
    intro x xs h
    rw [List.dropWhile_cons] at h
    split at h
    · exact ih h
    · next hp =>
      injection h with h1 h2
      subst h1
      simpa using hp

theorem casefoldChar_slug {c : Char} (h : isSlugChar c = true) : casefoldChar c = c := by
  unfold casefoldChar
  split
  · next hAZ =>
    exfalso
    simp only [Bool.and_eq_true, decide_eq_true_eq] at hAZ
    simp only [isSlugChar, isAlnum, isLowerAlpha, isDigitC, Bool.or_eq_true,
      Bool.and_eq_true, decide_eq_true_eq] at h
    rcases h with (⟨h1, _⟩ | ⟨_, h2⟩) | rfl
    · exact absurd (le_trans h1 hAZ.2) (by decide)
    · exact absurd (le_trans hAZ.1 h2) (by decide)
    · exact absurd hAZ.1 (by decide)
  · rfl

theorem map_casefoldChar_slug {s : List Char} (h : ∀ c ∈ s, isSlugChar c = true) :
    s.map casefoldChar = s := by
  induction s with
  | nil => rfl
  | cons c rest ih =>
    rw [List.map_cons, casefoldChar_slug (h c (List.mem_cons_self ..)),
      ih fun x hx => h x (List.mem_cons_of_mem _ hx)]

theorem sub1F_nil (fuel : Nat) : sub1F fuel [] = [] := by cases fuel <;> rfl

theorem sub2F_nil (fuel : Nat) : sub2F fuel [] = [] := by cases fuel <;> rfl

theorem sub3F_nil (fuel : Nat) : sub3F fuel [] = [] := by cases fuel <;> rfl

theorem sub4F_nil (fuel : Nat) : sub4F fuel [] = [] := by cases fuel <;> rfl

theorem sub1F_id : ∀ (fuel : Nat) (s : List Char), (∀ c ∈ s, c ≠ ' ') →
    sub1F fuel s = s := by
  intro fuel
  induction fuel with
  | zero => intro s _; rfl
  | succ fuel ih =>
    intro s hs
    match s with
    | [] => rfl
    | c :: rest =>
      simp only [sub1F]
      by_cases hc : isLowerAlpha c = true
      · rw [if_pos hc]
        split
        · next heq =>
          exfalso
          exact hs ' ' (mem_of_mem_dropWhile (heq ▸ List.mem_cons_self ..)) rfl
        · rw [ih _ fun x hx => hs x (mem_of_mem_dropWhile hx)]
          exact List.takeWhile_append_dropWhile ..
      · rw [if_neg hc, ih _ fun x hx => hs x (List.mem_cons_of_mem _ hx)]

theorem sub2F_id : ∀ (fuel : Nat) (s : List Char), (∀ c ∈ s, c ≠ '+') →
    sub2F fuel s = s := by
  intro fuel
  induction fuel with
  | zero => intro s _; rfl
  | succ fuel ih =>
    intro s hs
    match s with
    | [] => rfl
    | c :: rest =>
      simp only [sub2F]
      rw [if_neg (by simpa using hs c (List.mem_cons_self ..)),
        ih _ fun x hx => hs x (List.mem_cons_of_mem _ hx)]

theorem sub3F_id : ∀ (fuel : Nat) (s : List Char), (∀ c ∈ s, c ≠ '.') →
    sub3F fuel s = s := by
  intro fuel
  induction fuel with
  | zero => intro s _; rfl
  | succ fuel ih =>
    intro s hs
    match s with
    | [] => rfl
    | c :: rest =>
      simp only [sub3F]
      by_cases hc : isDigitC c = true
      · rw [if_pos hc]
        split
        · next heq =>
          exfalso
          exact hs '.' (mem_of_mem_dropWhile (heq ▸ List.mem_cons_self ..)) rfl
        · rw [ih _ fun x hx => hs x (mem_of_mem_dropWhile hx)]
          exact List.takeWhile_append_dropWhile ..
      · rw [if_neg hc, ih _ fun x hx => hs x (List.mem_cons_of_mem _ hx)]

theorem sub4F_slug : ∀ (fuel : Nat) (s : List Char), s.length ≤ fuel →
    ∀ c ∈ sub4F fuel s, isSlugChar c = true := by
  intro fuel
  induction fuel with
  | zero =>
    intro s hlen
    rw [List.length_eq_zero.mp (Nat.le_zero.mp hlen)]
    intro c hc
    cases hc
  | succ fuel ih =>
    intro s hlen c hc
    match s with
    | [] => cases hc
    | a :: rest =>
      simp only [sub4F] at hc
      by_cases ha : isAlnum a = true
      · rw [if_pos ha] at hc
        rcases List.mem_cons.mp hc with rfl | hmem
        · simp [isSlugChar, ha]
        · exact ih rest (Nat.le_of_succ_le_succ hlen) c hmem
      · rw [if_neg ha] at hc
        rcases List.mem_cons.mp hc with rfl | hmem
        · simp [isSlugChar]
        · exact ih _ (le_trans (List.Sublist.length_le (List.dropWhile_sublist _))
            (Nat.le_of_succ_le_succ hlen)) c hmem

theorem sub4F_head (fuel : Nat) (c : Char) (rest : List Char)
    (hlen : (c :: rest).length ≤ fuel) :
    ∃ t, sub4F fuel (c :: rest) = (if isAlnum c then c else '-') :: t := by
  match fuel with
  | 0 => exact absurd hlen (by simp)
  | fuel + 1 =>
    simp only [sub4F]
    by_cases hc : isAlnum c = true
    · rw [if_pos hc, if_pos hc]
      exact ⟨_, rfl⟩
    · rw [if_neg hc, if_neg hc]
      exact ⟨_, rfl⟩

theorem noDD_tail {c : Char} {l : List Char} (h : noDD (c :: l) = true) :
    noDD l = true := by
  match l with
  | [] => rfl
  | x :: xs => exact (Bool.and_eq_true .. |>.mp h).2

theorem sub4F_noDD : ∀ (fuel : Nat) (s : List Char), s.length ≤ fuel →
    noDD (sub4F fuel s) = true := by
  intro fuel
  induction fuel with
  | zero =>
    intro s hlen
    rw [List.length_eq_zero.mp (Nat.le_zero.mp hlen)]
    rfl
  | succ fuel ih =>
    intro s hlen
    match s with
    | [] => rfl
    | a :: rest =>
      simp only [sub4F]
      by_cases ha : isAlnum a = true
      · rw [if_pos ha]
        match rest, hlen with
        | [], _ => rw [sub4F_nil]; rfl
        | r :: rs, hlen =>
          obtain ⟨t, ht⟩ := sub4F_head fuel r rs (Nat.le_of_succ_le_succ hlen)
          rw [ht]
          have hne : decide (a = '-') = false := by
            rcases Decidable.eq_or_ne a '-' with rfl | hne
            · cases ha
            · simpa using hne
          have h2 : noDD ((if isAlnum r then r else '-') :: t) = true := by
            rw [← ht]
            exact ih _ (Nat.le_of_succ_le_succ hlen)
          simp only [noDD, hne, Bool.false_and, Bool.not_false, Bool.true_and]
          exact h2
      · rw [if_neg ha]
        match hB : rest.dropWhile (fun x => !isAlnum x) with
        | [] => rw [sub4F_nil]; rfl
        | x :: xs =>
          have hx : isAlnum x = true := by
            have := dropWhile_eq_cons_head hB
            simpa using this
          have hlenB : (x :: xs).length ≤ fuel := by
            rw [← hB]
            exact le_trans (List.Sublist.length_le (List.dropWhile_sublist _))
              (Nat.le_of_succ_le_succ hlen)
          obtain ⟨t, ht⟩ := sub4F_head fuel x xs hlenB
          rw [if_pos hx] at ht
          rw [ht]
          have hxne : decide (x = '-') = false := by
            rcases Decidable.eq_or_ne x '-' with rfl | hne
            · cases hx
            · simpa using hne
          have h2 : noDD (x :: t) = true := by
            rw [← ht, ← hB]
            exact le_trans (List.Sublist.length_le (List.dropWhile_sublist _))
              (Nat.le_of_succ_le_succ hlen) |> ih _
          simp only [noDD, hxne, Bool.and_false, Bool.not_false, Bool.true_and]
          exact h2

theorem sub4F_id : ∀ (fuel : Nat) (s : List Char),
    (∀ c ∈ s, isSlugChar c = true) → noDD s = true → sub4F fuel s = s := by
  intro fuel
  induction fuel with
  | zero => intro s _ _; rfl
  | succ fuel ih =>
    intro s hs hdd
    match s with
    | [] => rfl
    | a :: rest =>
      simp only [sub4F]
      by_cases ha : isAlnum a = true
      · rw [if_pos ha,
          ih _ (fun x hx => hs x (List.mem_cons_of_mem _ hx)) (noDD_tail hdd)]
      · have hdash : a = '-' := by
          have := hs a (List.mem_cons_self ..)
          simp only [isSlugChar, Bool.or_eq_true, decide_eq_true_eq] at this
          rcases this with h | h
          · exact absurd h ha
          · exact h
        rw [if_neg ha]
        have hrest : rest.dropWhile (fun x => !isAlnum x) = rest := by
          match rest with
          | [] => rfl
          | x :: xs =>
            have hxslug := hs x (List.mem_cons_of_mem _ (List.mem_cons_self ..))
            have hxne : x ≠ '-' := by
              subst hdash
              simp only [noDD] at hdd
              obtain ⟨h1, _⟩ := Bool.and_eq_true .. |>.mp hdd
              intro e
              subst e
              simp at h1
            have hxal : isAlnum x = true := by
              simp only [isSlugChar, Bool.or_eq_true, decide_eq_true_eq] at hxslug
              rcases hxslug with h | h
              · exact h
              · exact absurd h hxne
            rw [List.dropWhile_cons, if_neg (by simp [hxal])]
        rw [hrest, hdash,
          ih _ (fun x hx => hs x (List.mem_cons_of_mem _ hx)) (noDD_tail hdd)]

end Norm

namespace Norm

theorem normalizeL_slug (s : List Char) (sw : Option (List String)) :
    (∀ c ∈ normalizeL s sw, isSlugChar c = true) ∧ noDD (normalizeL s sw) = true := by
  unfold normalizeL sub4
  exact ⟨sub4F_slug _ _ le_rfl, sub4F_noDD _ _ le_rfl⟩

theorem normalizeL_fixed (t : List Char)
    (hs : ∀ c ∈ t, isSlugChar c = true) (hdd : noDD t = true) :
    normalizeL t none = t := by
  have hmap : t.map casefoldChar = t := map_casefoldChar_slug hs
  have h1 : sub1 t = t :=
    sub1F_id _ _ fun c hc e => by subst e; exact absurd (hs _ hc) (by decide)
  have h2 : sub2 t = t :=
    sub2F_id _ _ fun c hc e => by subst e; exact absurd (hs _ hc) (by decide)
  have h3 : sub3 t = t :=
    sub3F_id _ _ fun c hc e => by subst e; exact absurd (hs _ hc) (by decide)
  have h4 : sub4 t = t := sub4F_id _ _ hs hdd
  show sub4 (sub3 (sub2 (sub1 (t.map casefoldChar)))) = t
  rw [hmap, h1, h2, h3, h4]

theorem normalizeL_idem (s : List Char) (sw : Option (List String)) :
    normalizeL (normalizeL s sw) none = normalizeL s sw :=
  normalizeL_fixed _ (normalizeL_slug s sw).1 (normalizeL_slug s sw).2

end Norm

namespace Liquidctl

theorem CHART_PROTO_FROM_TYPE_total (t : ChartType) :
    ∃ p, CHART_PROTO_FROM_TYPE t = some p := by
  cases t <;> exact ⟨_, rfl⟩

theorem processItem_ok (st : PollState) (device : Device) (item : ItemJson) :
    ∃ st', processItem st device item = .ok st' ∧ st'.device_seen = st.device_seen := by
  unfold processItem
  match hfind : INPUT_UNIT_FROM_STR item.unit with
  | none =>
    simp only [InputUnit.from_item, hfind]
    exact ⟨_, rfl, rfl⟩
  | some u =>
    obtain ⟨p, hp⟩ := CHART_PROTO_FROM_TYPE_total u.chart_type
    simp only [InputUnit.from_item, hfind, ChartProto.from_unit, hp, Except.bind,
      Except.map]
    split
    · exact ⟨_, rfl, rfl⟩
    · exact ⟨_, rfl, rfl⟩

theorem foldlM_processItem (device : Device) (items : List ItemJson) :
    ∀ st : PollState, ∃ st',
      List.foldlM (fun s item => processItem s device item) st items = .ok st' ∧
      st'.device_seen = st.device_seen := by
  induction items with
  | nil => exact fun st => ⟨st, rfl, rfl⟩
  | cons item rest ih =>
    intro st
    obtain ⟨st1, h1, hseen1⟩ := processItem_ok st device item
    obtain ⟨st', h2, hseen2⟩ := ih st1
    refine ⟨st', ?_, hseen2.trans hseen1⟩
    rw [List.foldlM_cons, h1]
    exact h2

theorem processDevice_new (st : PollState) (dj : DeviceJson)
    (h : deviceIdOf dj ∉ st.device_seen) :
    ∃ st', processDevice st dj = .ok st' ∧
      st'.device_seen = st.device_seen ++ [deviceIdOf dj] := by
  obtain ⟨st', h1, hseen⟩ := foldlM_processItem
    { id := deviceIdOf dj, name := normalize dj.description none,
      label := dj.description, bus := dj.bus, address := dj.address }
    dj.status { st with device_seen := st.device_seen ++ [deviceIdOf dj] }
  refine ⟨st', ?_, hseen⟩
  simp only [processDevice, deviceIdOf] at *
  rw [if_neg (by simpa using h)]
  exact h1

theorem processDevice_dup (st : PollState) (dj : DeviceJson)
    (h : deviceIdOf dj ∈ st.device_seen) :
    processDevice st dj = .error .assertionError := by
  simp only [processDevice, deviceIdOf] at *
  rw [if_pos (by simpa using h)]

end Liquidctl

/-- C1 counterexample: `build_data` truncates toward zero (Python
`int()`), it does not round toward nearest.  For an uptime data point of
value 36.6 (store-ratio 1) the emitted integer is 36, while
`round_toward_nearest(36.6 * 1)` is 37. -/
theorem C1_counterexample :
    Liquidctl.build_data Liquidctl.dpsUptime = some [("my-device-x_uptime_up", 36)] ∧
    round_toward_nearest
      (fracMul (mkRat 366 10) Liquidctl.uptimeProto.get_store_ratio) = 37 ∧
    (36 : Int) ≠ 37 := by
  refine ⟨by decide, by decide, by decide⟩

/-- C1 (amended): `build_data()` emits `int(value * store_ratio)` —
exact rational multiplication followed by Python `int()` truncation
toward zero, not round-toward-nearest.  Precisely: every output entry is
`(dim_id, int(value * store_ratio))` of some accumulated data point
bearing that dimension id; every accumulated data point's dimension id is
a key of the output map; and whenever the accumulated dimension ids are
pairwise distinct (no dimension-id collision, the dict comprehension
otherwise keeping only the last write) every data point's dimension id
maps to exactly its own `int(value * store_ratio)`.  In particular, for
store-ratio 1000/1 and input value 36.6 the emitted integer is exactly
36600, identically on every repetition with the same input. -/
theorem C1_theorem :
    (∀ (dps : List (Liquidctl.Chart × List Liquidctl.ChartDataPoint))
       (out : List (String × Int)),
       Liquidctl.build_data dps = some out →
       ∀ kv ∈ out, ∃ cd ∈ dps, ∃ dp ∈ cd.2,
         kv = (Liquidctl.make_dim_id cd.1 dp,
               pyInt (dp.value * cd.1.proto.get_store_ratio)))
    ∧ (∀ dps : List (Liquidctl.Chart × List Liquidctl.ChartDataPoint),
       ∀ cd ∈ dps, ∀ dp ∈ cd.2,
         ∃ out n, Liquidctl.build_data dps = some out ∧
           List.lookup (Liquidctl.make_dim_id cd.1 dp) out = some n)
    ∧ (∀ dps : List (Liquidctl.Chart × List Liquidctl.ChartDataPoint),
       (Liquidctl.dimIds dps).Nodup →
       ∀ cd ∈ dps, ∀ dp ∈ cd.2,
         ∃ out, Liquidctl.build_data dps = some out ∧
           List.lookup (Liquidctl.make_dim_id cd.1 dp) out =
             some (pyInt (dp.value * cd.1.proto.get_store_ratio)))
    ∧ Liquidctl.build_data Liquidctl.dpsTemp =
        some [("my-device-x_temperature_temp1", 36600)] := by
  refine ⟨?_, ?_, ?_, by decide⟩
  · intro dps out h kv hkv
    simp only [Liquidctl.build_data] at h
    split at h
    · cases h
    · injection h with h
      subst h
      rcases Liquidctl.build_data_outer_mem dps [] kv hkv with h1 | ⟨cd, hcd, dp, hdp, he⟩
      · cases h1
      · exact ⟨cd, hcd, dp, hdp, by rw [he, fracMul_eq]⟩
  · intro dps cd hcd dp hdp
    obtain ⟨m, hm⟩ := lookup_foldl_dictSet_mem (Liquidctl.dataEntries dps) []
      (Liquidctl.make_dim_id cd.1 dp,
        pyInt (fracMul dp.value cd.1.proto.get_store_ratio))
      (Liquidctl.build_data_entry_mem dps cd dp hcd hdp)
    exact ⟨_, m, Liquidctl.build_data_eq_of_lookup dps _ m hm, hm⟩
  · intro dps hnd cd hcd dp hdp
    have hkeys : ((Liquidctl.dataEntries dps).map Prod.fst).Nodup := by
      rw [Liquidctl.dataEntries_keys]
      exact hnd
    have hm := lookup_foldl_dictSet_nodup (Liquidctl.dataEntries dps) []
      (Liquidctl.make_dim_id cd.1 dp,
        pyInt (fracMul dp.value cd.1.proto.get_store_ratio))
      (Liquidctl.build_data_entry_mem dps cd dp hcd hdp) hkeys
    rw [fracMul_eq] at hm
    exact ⟨_, Liquidctl.build_data_eq_of_lookup dps _ _ hm, hm⟩

/-- C1 witness: the no-collision clause of the amended theorem applied to
the concrete temperature state with value 36.6, whose single dimension id
maps to exactly 36600. -/
theorem C1_witness :
    (Liquidctl.dimIds Liquidctl.dpsTemp).Nodup ∧
    ∃ out, Liquidctl.build_data Liquidctl.dpsTemp = some out ∧
      List.lookup
        (Liquidctl.make_dim_id ⟨Liquidctl.temperatureProto, Liquidctl.devX⟩
          ⟨"temp1", "Temp 1", mkRat 366 10⟩) out =
        some (pyInt ((mkRat 366 10) *
          (⟨Liquidctl.temperatureProto, Liquidctl.devX⟩ :
            Liquidctl.Chart).proto.get_store_ratio)) :=
  ⟨by decide,
   C1_theorem.2.2.1 Liquidctl.dpsTemp (by decide)
     (⟨Liquidctl.temperatureProto, Liquidctl.devX⟩,
       [⟨"temp1", "Temp 1", mkRat 366 10⟩])
     (by decide) ⟨"temp1", "Temp 1", mkRat 366 10⟩ (by decide)⟩

/-- C2: the normalizer's documented examples hold: `normalize("Fan 1")`
is `fan1`, `normalize("+12.0V")` is `12v0`, and `normalize` of
`"VIN Voltage Rail"` with the voltage filler words is `vin` (stated both
through the voltage prototype and through the raw filler-word set). -/
theorem C2_theorem :
    Liquidctl.normalize "Fan 1" none = "fan1" ∧
    Liquidctl.normalize "+12.0V" none = "12v0" ∧
    Liquidctl.normalize "VIN Voltage Rail" (some Liquidctl.voltageProto) = "vin" ∧
    Norm.normalizeL "VIN Voltage Rail".data (some ["voltage", "rail"]) = "vin".data := by
  exact ⟨by decide, by decide, by decide, by decide⟩

/-- C3: `build_charts` emits registrations exactly for accumulated charts
whose id is not yet registered, every emitted id is in the registered set
afterwards, and a second `build_charts` run over the same accumulated
state emits nothing. -/
theorem C3_theorem :
    ∀ (p : Int) (dps : List (Liquidctl.Chart × List Liquidctl.ChartDataPoint))
      (cs : List String),
      (∀ reg ∈ (Liquidctl.build_charts p dps cs).1, reg.spec.options.id ∉ cs) ∧
      (∀ reg ∈ (Liquidctl.build_charts p dps cs).1,
        reg.spec.options.id ∈ (Liquidctl.build_charts p dps cs).2) ∧
      (Liquidctl.build_charts p dps ((Liquidctl.build_charts p dps cs).2)).1 = [] := by
  intro p dps cs
  refine ⟨fun reg h => Liquidctl.build_charts_emits_new p dps cs reg h,
          fun reg h => Liquidctl.build_charts_emitted_registered p dps cs reg h, ?_⟩
  rw [Liquidctl.build_charts_all_registered p dps _
    (fun cd hcd => Liquidctl.build_charts_mem_id p dps cs cd hcd)]

/-- C3 witness: both parts at a concrete one-chart state. -/
theorem C3_witness :
    (Liquidctl.build_charts 60000 Liquidctl.dpsTemp
        ((Liquidctl.build_charts 60000 Liquidctl.dpsTemp []).2)).1 = [] ∧
    (⟨⟨Liquidctl.temperatureProto, Liquidctl.devX⟩,
        Liquidctl.make_chart ⟨Liquidctl.temperatureProto, Liquidctl.devX⟩
          [⟨"temp1", "Temp 1", mkRat 366 10⟩],
        60001⟩ : Liquidctl.ChartRegistration).spec.options.id ∉ ([] : List String) :=
  ⟨(C3_theorem 60000 Liquidctl.dpsTemp []).2.2,
   (C3_theorem 60000 Liquidctl.dpsTemp []).1 _ (by decide)⟩

/-- C10: the normalizer is idempotent on its own output: renormalizing
(with no filler words) any slug produced by `_normalize` returns it
unchanged. -/
theorem C10_theorem (s : String) (proto : Option Liquidctl.ChartProto) :
    Liquidctl.normalize (Liquidctl.normalize s proto) none =
      Liquidctl.normalize s proto := by
  unfold Liquidctl.normalize
  exact congrArg String.mk (Norm.normalizeL_idem s.data _)

/-- C4 counterexample: the duplicate-device abort comes from a bare
`assert`, so the logged error is the constant `'Failed to get data: '`
(the `AssertionError` stringifies to nothing): two different offending
device pairs produce identical error output, and the derived device id
does not occur in the message — the error does not name the offending
pair. -/
theorem C4_counterexample :
    (Liquidctl.get_data 60000 [] Liquidctl.inputDupA).data = none ∧
    (Liquidctl.get_data 60000 [] Liquidctl.inputDupA).errors = ["Failed to get data: "] ∧
    (Liquidctl.get_data 60000 [] Liquidctl.inputDupB).errors = ["Failed to get data: "] ∧
    Liquidctl.deviceIdOf ⟨"Dev A", "hid", "/dev/h1", []⟩ ≠
      Liquidctl.deviceIdOf ⟨"Pump B", "hid", "/dev/h2", []⟩ ∧
    ¬ (Liquidctl.deviceIdOf ⟨"Dev A", "hid", "/dev/h1", []⟩).data <:+:
        "Failed to get data: ".data := by
  refine ⟨by decide, by decide, by decide, by decide, by decide⟩

/-- C4 (amended): when two raw device records of one poll derive the same
device id, the rest of the poll is aborted and the poll reports no data
with a single generic error message that does not identify the offending
devices; the registered-chart set is untouched, no registration request is
emitted, and a subsequent poll with non-duplicated ids succeeds
normally. -/
theorem C4_theorem (p : Int) (cs : List String) (d1 d2 : Liquidctl.DeviceJson)
    (h : Liquidctl.deviceIdOf d1 = Liquidctl.deviceIdOf d2) :
    (Liquidctl.get_data p cs [d1, d2]).data = none ∧
    (Liquidctl.get_data p cs [d1, d2]).errors = ["Failed to get data: "] ∧
    (Liquidctl.get_data p cs [d1, d2]).requests = [] ∧
    (Liquidctl.get_data p cs [d1, d2]).charts = cs ∧
    (Liquidctl.get_data 60000 [] Liquidctl.inputGood).data =
      some [("corsair-commander-pro-hidraw2_fan_fan1", 1200),
            ("corsair-commander-pro-hidraw2_temperature_temp1", 36600)] := by
  obtain ⟨st1, h1, hseen⟩ := Liquidctl.processDevice_new ⟨[], [], []⟩ d1 (by simp)
  have h2 : Liquidctl.processDevice st1 d2 = .error .assertionError := by
    apply Liquidctl.processDevice_dup
    rw [hseen, ← h]
    simp
  have hinner : Liquidctl.getDataInner p cs [d1, d2] = .error .assertionError := by
    unfold Liquidctl.getDataInner
    rw [List.foldlM_cons, h1]
    show (List.foldlM Liquidctl.processDevice st1 [d2] >>= _) = _
    rw [List.foldlM_cons, h2]
    rfl
  simp only [Liquidctl.get_data, hinner]
  exact ⟨trivial, trivial, trivial, trivial, by decide⟩

/-- C4 witness: the amended theorem at the concrete duplicate pair
`inputDupA`. -/
theorem C4_witness :
    (Liquidctl.get_data 60000 [] [⟨"Dev A", "hid", "/dev/h1", []⟩,
        ⟨"Dev A", "usb", "/dev/h1", []⟩]).data = none ∧
    (Liquidctl.get_data 60000 [] [⟨"Dev A", "hid", "/dev/h1", []⟩,
        ⟨"Dev A", "usb", "/dev/h1", []⟩]).errors = ["Failed to get data: "] ∧
    (Liquidctl.get_data 60000 [] [⟨"Dev A", "hid", "/dev/h1", []⟩,
        ⟨"Dev A", "usb", "/dev/h1", []⟩]).requests = [] ∧
    (Liquidctl.get_data 60000 [] [⟨"Dev A", "hid", "/dev/h1", []⟩,
        ⟨"Dev A", "usb", "/dev/h1", []⟩]).charts = [] ∧
    (Liquidctl.get_data 60000 [] Liquidctl.inputGood).data =
      some [("corsair-commander-pro-hidraw2_fan_fan1", 1200),
            ("corsair-commander-pro-hidraw2_temperature_temp1", 36600)] :=
  C4_theorem 60000 [] ⟨"Dev A", "hid", "/dev/h1", []⟩ ⟨"Dev A", "usb", "/dev/h1", []⟩
    (by decide)

/-- C5: `validate_limits` is true exactly when no limits are configured
or the value lies inclusively between them; concretely, a temperature
reading of 500 (limits [-200, 200]) is dropped with one warning and never
reaches `build_data()`'s output, while the following valid reading of the
same device is processed normally. -/
theorem C5_theorem :
    (∀ (p : Liquidctl.ChartProto) (v : ℚ),
      p.validate_limits v = true ↔
        (p.limits = none ∨
         ∃ lo hi, p.limits = some (lo, hi) ∧ (lo : ℚ) ≤ v ∧ v ≤ (hi : ℚ)))
    ∧ (Liquidctl.get_data 60000 [] Liquidctl.inputRange).data =
        some [("my-device-x_temperature_temp2", 36600)]
    ∧ (Liquidctl.get_data 60000 [] Liquidctl.inputRange).warnings =
        ["Bad item value (expected within -200 and 200), skipping: Temp 1"]
    ∧ (Liquidctl.get_data 60000 [] Liquidctl.inputRange).errors = [] := by
  refine ⟨?_, by decide, by decide, by decide⟩
  intro p v
  unfold Liquidctl.ChartProto.validate_limits
  cases hl : p.limits with
  | none => simp
  | some l =>
    simp only [Bool.and_eq_true, decide_eq_true_eq, reduceCtorEq, Option.some.injEq,
      false_or]
    constructor
    · intro hv
      exact ⟨l.1, l.2, by simp, hv.1, hv.2⟩
    · rintro ⟨lo, hi, hlh, h1, h2⟩
      rw [hlh]
      exact ⟨h1, h2⟩

/-- C6: the seven supported unit strings classify to their documented
metric types; any other unit string makes `InputUnit.from_item` fail with
the module's `ErrorException`; and the driver skips only the offending
item with a warning, while the rest of the poll proceeds. -/
theorem C6_theorem :
    (Liquidctl.INPUT_UNIT_FROM_STR "°C" =
        some ⟨Liquidctl.ChartType.TEMPERATURE, "°C", none⟩ ∧
     Liquidctl.INPUT_UNIT_FROM_STR "rpm" =
        some ⟨Liquidctl.ChartType.FAN, "rpm", none⟩ ∧
     Liquidctl.INPUT_UNIT_FROM_STR "W" =
        some ⟨Liquidctl.ChartType.POWER, "W", none⟩ ∧
     Liquidctl.INPUT_UNIT_FROM_STR "V" =
        some ⟨Liquidctl.ChartType.VOLTAGE, "V", none⟩ ∧
     Liquidctl.INPUT_UNIT_FROM_STR "A" =
        some ⟨Liquidctl.ChartType.CURRENT, "A", none⟩ ∧
     Liquidctl.INPUT_UNIT_FROM_STR "%" =
        some ⟨Liquidctl.ChartType.EFFICIENCY, "%", none⟩ ∧
     Liquidctl.INPUT_UNIT_FROM_STR "s" =
        some ⟨Liquidctl.ChartType.TIME, "s", none⟩)
    ∧ (∀ item : Liquidctl.ItemJson,
        item.unit ∉ ["°C", "rpm", "W", "V", "A", "%", "s"] →
        Liquidctl.InputUnit.from_item item = .error (.errorException
          ("Unsupported: cannot determine unit for item " ++ item.key ++ " " ++
            item.unit)))
    ∧ ((Liquidctl.get_data 60000 [] Liquidctl.inputUnitErr).data =
          some [("my-device-x_temperature_temp2", 36600)]
       ∧ (Liquidctl.get_data 60000 [] Liquidctl.inputUnitErr).warnings =
          ["Skipping item: Unsupported: cannot determine unit for item Odd X"]
       ∧ (Liquidctl.get_data 60000 [] Liquidctl.inputUnitErr).errors = []) := by
  refine ⟨by decide, ?_, by decide, by decide, by decide⟩
  intro item h
  simp only [List.mem_cons, List.not_mem_nil, or_false, not_or] at h
  obtain ⟨h1, h2, h3, h4, h5, h6, h7⟩ := h
  have e1 : decide (("°C" : String) = item.unit) = false :=
    decide_eq_false fun e => h1 e.symm
  have e2 : decide (("rpm" : String) = item.unit) = false :=
    decide_eq_false fun e => h2 e.symm
  have e3 : decide (("W" : String) = item.unit) = false :=
    decide_eq_false fun e => h3 e.symm
  have e4 : decide (("V" : String) = item.unit) = false :=
    decide_eq_false fun e => h4 e.symm
  have e5 : decide (("A" : String) = item.unit) = false :=
    decide_eq_false fun e => h5 e.symm
  have e6 : decide (("%" : String) = item.unit) = false :=
    decide_eq_false fun e => h6 e.symm
  have e7 : decide (("s" : String) = item.unit) = false :=
    decide_eq_false fun e => h7 e.symm
  have hnone : Liquidctl.INPUT_UNIT_FROM_STR item.unit = none := by
    simp [Liquidctl.INPUT_UNIT_FROM_STR, Liquidctl.INPUT_UNITS, List.find?,
      e1, e2, e3, e4, e5, e6, e7]
  unfold Liquidctl.InputUnit.from_item
  rw [hnone]

/-- C6 witness: the unsupported-unit clause of `C6_theorem` at the
concrete unit string `X`. -/
theorem C6_witness :
    Liquidctl.InputUnit.from_item ⟨"k", "X", 0⟩ = .error (.errorException
      ("Unsupported: cannot determine unit for item " ++ "k" ++ " " ++ "X")) :=
  C6_theorem.2.1 ⟨"k", "X", 0⟩ (by decide)

namespace Sensors

theorem CHARTS_line_shape (ft : String) (cdef : ChartDef)
    (h : List.lookup ft CHARTS = some cdef) :
    cdef.line_multiplier = 1 ∧ cdef.line_divisor = 1000 ∧
    cdef.line_algorithm = if ft = "energy" then "incremental" else "absolute" := by
  by_cases t1 : ft = "temperature"
  · subst t1; simp [CHARTS, List.lookup] at h; subst h; decide
  · by_cases t2 : ft = "voltage"
    · subst t2; simp [CHARTS, List.lookup] at h; subst h; decide
    · by_cases t3 : ft = "current"
      · subst t3; simp [CHARTS, List.lookup] at h; subst h; decide
      · by_cases t4 : ft = "power"
        · subst t4; simp [CHARTS, List.lookup] at h; subst h; decide
        · by_cases t5 : ft = "fan"
          · subst t5; simp [CHARTS, List.lookup] at h; subst h; decide
          · by_cases t6 : ft = "energy"
            · subst t6; simp [CHARTS, List.lookup] at h; subst h; decide
            · by_cases t7 : ft = "humidity"
              · subst t7; simp [CHARTS, List.lookup] at h; subst h; decide
              · exfalso
                simp [CHARTS, List.lookup, beq_eq_false_iff_ne.mpr t1,
                  beq_eq_false_iff_ne.mpr t2, beq_eq_false_iff_ne.mpr t3,
                  beq_eq_false_iff_ne.mpr t4, beq_eq_false_iff_ne.mpr t5,
                  beq_eq_false_iff_ne.mpr t6, beq_eq_false_iff_ne.mpr t7] at h

theorem updateChartsFeat_dims (p : Int) (cname : String) (m : ChipMeta) :
    ∀ (fm : SeenEntry) (cs : List String),
      ∀ reg ∈ (updateChartsFeat p cname m fm cs).1, ∀ dim ∈ reg.dims,
        dim.multiplier = 1 ∧ dim.divisor = 1000 ∧
        dim.algorithm = if reg.feat_type = "energy" then "incremental" else "absolute" := by
  intro fm
  induction fm with
  | nil => intro cs reg h; cases h
  | cons e rest ih =>
    intro cs reg h dim hdim
    obtain ⟨ft, sub⟩ := e
    simp only [updateChartsFeat] at h
    match hlk : List.lookup ft CHARTS with
    | none =>
      simp only [hlk] at h
      exact ih _ reg h dim hdim
    | some cdef =>
      simp only [hlk] at h
      split at h
      · split at h
        · exact ih _ reg h dim hdim
        · rcases List.mem_cons.mp h with rfl | hmem
          · have hdim' : ∃ a b, (a, b) ∈ sub ∧
                ({ id := cname ++ "_" ++ a, name := b,
                   algorithm := cdef.line_algorithm,
                   multiplier := cdef.line_multiplier,
                   divisor := cdef.line_divisor,
                   hidden := "" } : Liquidctl.DimLine) = dim := by
              simpa [makeRegistration] using hdim
            obtain ⟨a, b, _, hline⟩ := hdim'
            obtain ⟨ha, hb, hc⟩ := CHARTS_line_shape ft cdef hlk
            subst hline
            simpa [makeRegistration] using ⟨ha, hb, hc⟩
          · exact ih _ reg hmem dim hdim
      · exact ih _ reg h dim hdim

theorem update_sensors_charts_dims (p : Int) (cfg : Option (List String))
    (meta : List (String × ChipMeta)) :
    ∀ (seen : List (String × SeenEntry)) (cs : List String),
      ∀ reg ∈ (update_sensors_charts p cfg meta seen cs).1, ∀ dim ∈ reg.dims,
        dim.multiplier = 1 ∧ dim.divisor = 1000 ∧
        dim.algorithm = if reg.feat_type = "energy" then "incremental" else "absolute" := by
  intro seen
  induction seen with
  | nil => intro cs reg h; cases h
  | cons e rest ih =>
    intro cs reg h dim hdim
    obtain ⟨cname, featmap⟩ := e
    simp only [update_sensors_charts] at h
    split at h
    · exact ih _ reg h dim hdim
    · match hlk : List.lookup cname meta with
      | none =>
        simp only [hlk] at h
        exact ih _ reg h dim hdim
      | some m =>
        simp only [hlk] at h
        rcases List.mem_append.mp h with h1 | h1
        · exact updateChartsFeat_dims p cname m featmap cs reg h1 dim hdim
        · exact ih _ reg h1 dim hdim

end Sensors

/-- C7 counterexample: in the sensors variant an energy feature is
registered with a dimension whose accumulation algorithm is
`incremental`, not `absolute` (the `CHARTS` energy template). -/
theorem C7_counterexample :
    (Sensors.get_data 60000 none [] Sensors.inputEnergy).map
        (fun o => o.requests.map (fun r => r.dims.map (fun d => d.algorithm)))
      = .ok [["incremental"]] ∧
    ("incremental" : String) ≠ "absolute" := by
  exact ⟨by decide, by decide⟩

/-- C7 (amended): every dimension descriptor emitted at chart
registration carries the (multiplier, divisor) pair
(store_ratio.denominator, store_ratio.numerator) — in the sensors variant
the fixed pair (1, 1000) — and the accumulation algorithm `absolute` for
every metric type except the sensors variant's energy metric, which uses
`incremental`. -/
theorem C7_theorem :
    (∀ (chart : Liquidctl.Chart) (data : List Liquidctl.ChartDataPoint),
      ∀ dim ∈ (Liquidctl.make_chart chart data).lines,
        dim.algorithm = "absolute" ∧
        dim.multiplier = ((chart.proto.get_store_ratio).den : Int) ∧
        dim.divisor = (chart.proto.get_store_ratio).num)
    ∧ (∀ (p : Int) (cfg : Option (List String))
        (meta : List (String × Sensors.ChipMeta))
        (seen : List (String × Sensors.SeenEntry)) (cs : List String),
        ∀ reg ∈ (Sensors.update_sensors_charts p cfg meta seen cs).1,
        ∀ dim ∈ reg.dims,
          dim.multiplier = 1 ∧ dim.divisor = 1000 ∧
          dim.algorithm =
            if reg.feat_type = "energy" then "incremental" else "absolute") := by
  constructor
  · intro chart data dim hdim
    simp only [Liquidctl.make_chart] at hdim
    obtain ⟨dp, _, hline⟩ := List.mem_map.mp hdim
    subst hline
    exact ⟨rfl, rfl, rfl⟩
  · exact fun p cfg meta seen cs => Sensors.update_sensors_charts_dims p cfg meta seen cs

/-- C7 witness: both parts at concrete registrations — a liquidctl
temperature dimension and the sensors energy registration of
`inputEnergy`. -/
theorem C7_witness :
    ((⟨"my-device-x_temperature_temp1", "Temp 1", "absolute", 1, 1000, ""⟩ :
        Liquidctl.DimLine).algorithm = "absolute" ∧
      (⟨"my-device-x_temperature_temp1", "Temp 1", "absolute", 1, 1000, ""⟩ :
        Liquidctl.DimLine).multiplier =
        (((⟨Liquidctl.temperatureProto, Liquidctl.devX⟩ :
            Liquidctl.Chart).proto.get_store_ratio).den : Int) ∧
      (⟨"my-device-x_temperature_temp1", "Temp 1", "absolute", 1, 1000, ""⟩ :
        Liquidctl.DimLine).divisor =
        ((⟨Liquidctl.temperatureProto, Liquidctl.devX⟩ :
            Liquidctl.Chart).proto.get_store_ratio).num) ∧
    ((⟨"chipa-isa-0000_energy1", "Energy 1", "incremental", 1, 1000, ""⟩ :
        Liquidctl.DimLine).multiplier = 1 ∧
      (⟨"chipa-isa-0000_energy1", "Energy 1", "incremental", 1, 1000, ""⟩ :
        Liquidctl.DimLine).divisor = 1000 ∧
      (⟨"chipa-isa-0000_energy1", "Energy 1", "incremental", 1, 1000, ""⟩ :
        Liquidctl.DimLine).algorithm =
        if (Sensors.makeRegistration 60000 "chipa-isa-0000" "energy"
              ⟨"Energy", "Joule", "energy", "sensors.energy", "line", "incremental", 1, 1000⟩
              ⟨"chipa-isa-0000", "chipa", "isa-0000", "isa"⟩
              [("energy1", "Energy 1")]).feat_type = "energy"
        then "incremental" else "absolute") :=
  ⟨C7_theorem.1 ⟨Liquidctl.temperatureProto, Liquidctl.devX⟩
      [⟨"temp1", "Temp 1", mkRat 366 10⟩] _ (by decide),
   C7_theorem.2 60000 none
      [("chipa-isa-0000", ⟨"chipa-isa-0000", "chipa", "isa-0000", "isa"⟩)]
      [("chipa-isa-0000", [("energy", [("energy1", "Energy 1")])])] [] _
      (by decide) _ (by decide)⟩

namespace Liquidctl

theorem build_charts_priority (p : Int) (dps : List (Chart × List ChartDataPoint)) :
    ∀ (cs : List String), ∀ reg ∈ (build_charts p dps cs).1,
      reg.priority = p + ChartType.toInt reg.chart_key.proto.type := by
  induction dps with
  | nil => intro cs reg h; cases h
  | cons cd rest ih =>
    intro cs reg h
    simp only [build_charts] at h
    split at h
    · exact ih _ reg h
    · rcases List.mem_cons.mp h with rfl | hmem
      · rfl
      · exact ih _ reg hmem

end Liquidctl

namespace Sensors

theorem gcp_of_findIdx (p : Int) (ft : String) (i : Nat)
    (h : ORDER.findIdx? (fun v => decide (v = ft)) = some i) :
    get_chart_priority p ft = p + (i : Int) := by
  unfold get_chart_priority
  rw [h]

theorem ORDER_findIdx (ft : String) (h : ft ∈ ORDER) :
    ∃ i, ORDER.findIdx? (fun v => decide (v = ft)) = some i := by
  simp only [ORDER, List.mem_cons, List.not_mem_nil, or_false] at h
  rcases h with rfl | rfl | rfl | rfl | rfl | rfl | rfl
  · exact ⟨0, by decide⟩
  · exact ⟨1, by decide⟩
  · exact ⟨2, by decide⟩
  · exact ⟨3, by decide⟩
  · exact ⟨4, by decide⟩
  · exact ⟨5, by decide⟩
  · exact ⟨6, by decide⟩

theorem updateChartsFeat_priority (p : Int) (cname : String) (m : ChipMeta) :
    ∀ (fm : SeenEntry) (cs : List String),
      ∀ reg ∈ (updateChartsFeat p cname m fm cs).1,
        ∃ i, ORDER.findIdx? (fun v => decide (v = reg.feat_type)) = some i ∧
          reg.priority = p + (i : Int) := by
  intro fm
  induction fm with
  | nil => intro cs reg h; cases h
  | cons e rest ih =>
    intro cs reg h
    obtain ⟨ft, sub⟩ := e
    simp only [updateChartsFeat] at h
    match hlk : List.lookup ft CHARTS with
    | none =>
      simp only [hlk] at h
      exact ih _ reg h
    | some cdef =>
      simp only [hlk] at h
      split at h
      · next hord =>
        split at h
        · exact ih _ reg h
        · rcases List.mem_cons.mp h with rfl | hmem
          · obtain ⟨i, hi⟩ := ORDER_findIdx ft (of_decide_eq_true hord)
            refine ⟨i, by simpa [makeRegistration] using hi, ?_⟩
            have := gcp_of_findIdx p ft i hi
            simpa [makeRegistration] using this
          · exact ih _ reg hmem
      · exact ih _ reg h

theorem update_sensors_charts_priority (p : Int) (cfg : Option (List String))
    (meta : List (String × ChipMeta)) :
    ∀ (seen : List (String × SeenEntry)) (cs : List String),
      ∀ reg ∈ (update_sensors_charts p cfg meta seen cs).1,
        ∃ i, ORDER.findIdx? (fun v => decide (v = reg.feat_type)) = some i ∧
          reg.priority = p + (i : Int) := by
  intro seen
  induction seen with
  | nil => intro cs reg h; cases h
  | cons e rest ih =>
    intro cs reg h
    obtain ⟨cname, featmap⟩ := e
    simp only [update_sensors_charts] at h
    split at h
    · exact ih _ reg h
    · match hlk : List.lookup cname meta with
      | none =>
        simp only [hlk] at h
        exact ih _ reg h
      | some m =>
        simp only [hlk] at h
        rcases List.mem_append.mp h with h1 | h1
        · exact updateChartsFeat_priority p cname m featmap cs reg h1
        · exact ih _ reg h1

end Sensors

/-- C8: every chart registration's priority is the driver's base priority
plus the ordinal of the chart's metric type — the IntEnum value of
`ChartType` in the liquidctl variant, the index in `ORDER` in the sensors
variant — giving metric types a fixed, stable display order. -/
theorem C8_theorem :
    (∀ (p : Int) (dps : List (Liquidctl.Chart × List Liquidctl.ChartDataPoint))
       (cs : List String),
       ∀ reg ∈ (Liquidctl.build_charts p dps cs).1,
         reg.priority = p + Liquidctl.ChartType.toInt reg.chart_key.proto.type)
    ∧ (∀ (p : Int) (cfg : Option (List String))
        (meta : List (String × Sensors.ChipMeta))
        (seen : List (String × Sensors.SeenEntry)) (cs : List String),
        ∀ reg ∈ (Sensors.update_sensors_charts p cfg meta seen cs).1,
          ∃ i, Sensors.ORDER.findIdx? (fun v => decide (v = reg.feat_type)) = some i ∧
            reg.priority = p + (i : Int)) :=
  ⟨fun p dps cs => Liquidctl.build_charts_priority p dps cs,
   fun p cfg meta seen cs => Sensors.update_sensors_charts_priority p cfg meta seen cs⟩

/-- C8 witness: the liquidctl part at the concrete temperature chart
(priority 60000 + 1) and the sensors part at the concrete energy chart
(priority 60000 + 4). -/
theorem C8_witness :
    (⟨⟨Liquidctl.temperatureProto, Liquidctl.devX⟩,
        Liquidctl.make_chart ⟨Liquidctl.temperatureProto, Liquidctl.devX⟩
          [⟨"temp1", "Temp 1", mkRat 366 10⟩],
        60001⟩ : Liquidctl.ChartRegistration).priority =
      60000 + Liquidctl.ChartType.toInt
        (⟨⟨Liquidctl.temperatureProto, Liquidctl.devX⟩,
          Liquidctl.make_chart ⟨Liquidctl.temperatureProto, Liquidctl.devX⟩
            [⟨"temp1", "Temp 1", mkRat 366 10⟩],
          60001⟩ : Liquidctl.ChartRegistration).chart_key.proto.type ∧
    ∃ i, Sensors.ORDER.findIdx? (fun v => decide
        (v = (Sensors.makeRegistration 60000 "chipa-isa-0000" "energy"
          ⟨"Energy", "Joule", "energy", "sensors.energy", "line", "incremental", 1, 1000⟩
          ⟨"chipa-isa-0000", "chipa", "isa-0000", "isa"⟩
          [("energy1", "Energy 1")]).feat_type)) = some i ∧
      (Sensors.makeRegistration 60000 "chipa-isa-0000" "energy"
          ⟨"Energy", "Joule", "energy", "sensors.energy", "line", "incremental", 1, 1000⟩
          ⟨"chipa-isa-0000", "chipa", "isa-0000", "isa"⟩
          [("energy1", "Energy 1")]).priority = 60000 + (i : Int) :=
  ⟨C8_theorem.1 60000 Liquidctl.dpsTemp [] _ (by decide),
   C8_theorem.2 60000 none
      [("chipa-isa-0000", ⟨"chipa-isa-0000", "chipa", "isa-0000", "isa"⟩)]
      [("chipa-isa-0000", [("energy", [("energy1", "Energy 1")])])] [] _ (by decide)⟩

/-- C9: in the sensors variant, a reading whose value lies outside the
configured limits (temperature limits [-127, 1000]) still contributes its
`(name, label)` pair as a dimension of the registered chart, while the
out-of-range value is excluded from the returned data map (here: the only
reading, so the poll returns no data yet registers the chart with the
dimension). -/
theorem C9_theorem (v : ℚ) (h : v < -127 ∨ 1000 < v) :
    Sensors.get_data 60000 none [] [Sensors.chipTemp v] =
      .ok ⟨none, [Sensors.regTemp], ["chipa-isa-0000_temperature"]⟩ := by
  have hb : (decide (v < ((-127 : Int) : ℚ)) || decide (((1000 : Int) : ℚ) < v)) = true := by
    rcases h with h | h
    · have hc : v < ((-127 : Int) : ℚ) := by push_cast; exact h
      rw [Bool.or_eq_true]
      exact Or.inl (decide_eq_true hc)
    · have hc : ((1000 : Int) : ℚ) < v := by push_cast; exact h
      rw [Bool.or_eq_true]
      exact Or.inr (decide_eq_true hc)
  have hrfl : Sensors.processFeat "chipa-isa-0000" ([], [])
      ⟨2, "temp1", "Core 0", true, .ok (some v)⟩ =
      (if decide (v < ((-127 : Int) : ℚ)) || decide (((1000 : Int) : ℚ) < v)
       then ([("temperature", [("temp1", "Core 0")])], [])
       else ([("temperature", [("temp1", "Core 0")])],
             [("chipa-isa-0000_temp1", pyInt (fracMul v 1000))])) := rfl
  have hpf : Sensors.processFeat "chipa-isa-0000" ([], [])
      ⟨2, "temp1", "Core 0", true, .ok (some v)⟩ =
      ([("temperature", [("temp1", "Core 0")])], []) := by
    rw [hrfl, if_pos hb]
  have hchip : Sensors.processChip ⟨[], [], []⟩ (Sensors.chipTemp v) =
      .ok ⟨[("chipa-isa-0000", [("temperature", [("temp1", "Core 0")])])], [],
           [("chipa-isa-0000", ⟨"chipa-isa-0000", "chipa", "isa-0000", "isa"⟩)]⟩ := by
    have hstep : Sensors.processChip ⟨[], [], []⟩ (Sensors.chipTemp v) =
        .ok ⟨dictSet [("chipa-isa-0000", ([] : Sensors.SeenEntry))] "chipa-isa-0000"
              (Sensors.processFeat "chipa-isa-0000" ([], [])
                ⟨2, "temp1", "Core 0", true, .ok (some v)⟩).1,
            (Sensors.processFeat "chipa-isa-0000" ([], [])
                ⟨2, "temp1", "Core 0", true, .ok (some v)⟩).2,
            [("chipa-isa-0000", ⟨"chipa-isa-0000", "chipa", "isa-0000", "isa"⟩)]⟩ := rfl
    rw [hstep, hpf]
    decide
  simp only [Sensors.get_data, List.foldlM_cons, List.foldlM_nil]
  rw [hchip]
  decide

/-- C9 witness: the theorem at the concrete out-of-range value 1500. -/
theorem C9_witness :
    Sensors.get_data 60000 none [] [Sensors.chipTemp 1500] =
      .ok ⟨none, [Sensors.regTemp], ["chipa-isa-0000_temperature"]⟩ :=
  C9_theorem 1500 (Or.inr (by norm_num))
